import Mathlib

/-!
Shallow embedding of the C frame codecs of librobot
(`SharedWithRust.h` and the accompanying `.c` translation unit).

Modelling conventions:

* Machine integers are `Nat` with explicit truncation where the C performs
  a narrowing conversion or a fixed-width operation.  Reads of `uint8_t`
  fields and message bytes are reduced `% 256`, reads of `uint16_t` fields
  `% 65536`, matching the fact that a C object of that type can only hold
  such values.
* A message pointer is `Option (List Nat)`: `none` models a `NULL` pointer,
  `some m` a readable buffer whose bytes are `m`.  The `size` argument is
  passed separately, exactly as in the C signatures
  (`buffer_size_t` is `uint8_t`; theorems place range hypotheses where
  that width matters).
* A C local `SharedServos2019 s;` is uninitialized memory: the decode
  functions take the indeterminate initial value `s0` as an explicit
  parameter, and fields never assigned by the code keep the `s0` value.
* The fixed arrays of capacity 8 (`MAX_SERVOS` etc.) are `List`s whose
  intended length is 8; `slotAt` is the array read with the `Inhabited`
  default out of range.  The decoders are instrumented: they also return
  `oobRead` (some message byte was read at an offset `≥ size`) and
  `oobStore` (some record was stored at an array index `≥ 8`); the
  encoder for servos similarly reports reads of servo slots at
  index `≥ 8`.  For executions where both flags are `false` the embedding
  is a faithful translation of the C; a `true` flag marks an execution in
  which the C performs an out-of-bounds access.
-/

/-- Capacity of every record array (`MAX_SERVOS`, `MAX_CONTROLLED_MOTORS`,
`MAX_UNCONTROLLED_MOTORS`, `MAX_BRUSHLESS` are all 8 in `SharedWithRust.h`). -/
def MAX_SLOTS : Nat := 8

/-- Read of the message byte at offset `i`: a `uint8_t` load. -/
def byteAt (msg : List Nat) (i : Nat) : Nat := msg.getD i 0 % 256

/-- Array read `arr[i]` with the default element out of range. -/
def slotAt {α : Type} [Inhabited α] (l : List α) (i : Nat) : α := l.getD i default

/-- Writing `out` into the caller buffer `buf` at offsets `0 .. out.length - 1`. -/
def writeBytes (buf out : List Nat) : List Nat := out ++ buf.drop out.length

/-- One servo record (`struct Servo2019` of `SharedWithRust.h`). -/
structure Servo2019 where
  id : Nat
  position : Nat
  command : Nat
  command_type : Nat
  blocked : Nat
  blocking_mode : Nat
  color : Nat
deriving Repr, DecidableEq, Inhabited

/-- The servo collection (`struct SharedServos2019`). -/
structure SharedServos2019 where
  servos : List Servo2019
  nb_servos : Nat
  parsing_failed : Bool
deriving Repr, DecidableEq, Inhabited

/-- In-range values for every field of a servo record, as constrained by the
C field types (`uint8_t`, `uint16_t`) and the documented flag/color ranges. -/
def wfServo (r : Servo2019) : Prop :=
  r.id < 256 ∧ r.position < 65536 ∧ r.command < 65536 ∧
  r.command_type < 2 ∧ r.blocked < 2 ∧ r.blocking_mode < 2 ∧ r.color < 8

instance (r : Servo2019) : Decidable (wfServo r) := by
  unfold wfServo; infer_instance

/-- `struct ControlledMotor2019`. -/
structure ControlledMotor2019 where
  id : Nat
  wanted_angle_position : Nat
  wanted_nb_turns : Nat
  finished : Nat
  new_command : Nat
deriving Repr, DecidableEq, Inhabited

/-- `struct UncontrolledMotor2019`. -/
structure UncontrolledMotor2019 where
  id : Nat
  on_off : Nat
  rotation : Nat
deriving Repr, DecidableEq, Inhabited

/-- `struct Brushless2019`. -/
structure Brushless2019 where
  id : Nat
  on_off : Nat
deriving Repr, DecidableEq, Inhabited

/-- The motor collection (`struct SharedMotors2019`). -/
structure SharedMotors2019 where
  controlled_motors : List ControlledMotor2019
  uncontrolled_motors : List UncontrolledMotor2019
  brushless : List Brushless2019
  parsing_failed : Bool
deriving Repr, DecidableEq, Inhabited

/-- `struct SharedIO2019`. -/
structure SharedIO2019 where
  tirette : Nat
  parsing_failed : Bool
deriving Repr, DecidableEq, Inhabited

/-! ## Servo decoder (`servo_read_frame`) -/

/-- The record reconstructed by the body of the parsing loop of
`servo_read_frame` from the six message bytes at offsets
`count .. count + 5`:

* `uint16_t position = message[count++]; position <<= 8; position |= message[count++];`
  and the same for `command`;
* the status byte decodes as bit 5 = command type, bit 4 = blocked,
  bit 3 = blocking mode, bits 2-0 = color. -/
def parsedServo (msg : List Nat) (count : Nat) : Servo2019 :=
  let infos := byteAt msg (count + 5)
  { id := byteAt msg count
    position := (byteAt msg (count + 1) <<< 8) % 65536 ||| byteAt msg (count + 2)
    command := (byteAt msg (count + 3) <<< 8) % 65536 ||| byteAt msg (count + 4)
    command_type := Nat.land 32 infos >>> 5
    blocked := Nat.land 16 infos >>> 4
    blocking_mode := Nat.land 8 infos >>> 3
    color := Nat.land 7 infos }

/-- The duplicate-identifier scan of `servo_read_frame`:
`for (j = 0; j < MAX_SERVOS; ++j) if (s.servos[j].id == id) fail;`. -/
def servoDupId (servos : List Servo2019) (id : Nat) : Bool :=
  (List.range MAX_SLOTS).any (fun j => (slotAt servos j).id == id)

/-- Result of the servo parsing loop: the collection, whether the loop
returned early with the failure flag, and the two instrumentation flags. -/
structure ServoParseOut where
  s : SharedServos2019
  aborted : Bool
  oobRead : Bool
  oobStore : Bool
deriving Repr, DecidableEq

/-- The parsing loop of `servo_read_frame`
(`for (index = 0; index < nb_servo; ++index) { ... }`), with the iteration
count made explicit as `rem = nb_servo - index` and the running byte offset
`count` (equal to `1 + 6 * index` on every entry from the actual decoder). -/
def servoParseLoop (msg : List Nat) (size : Nat) (st : SharedServos2019)
    (index count rem : Nat) (oobR oobS : Bool) : ServoParseOut :=
  match rem with
  | 0 => ⟨st, false, oobR, oobS⟩
  | rem + 1 =>
    let oobR := oobR || decide (size ≤ count)
    let id := byteAt msg count
    if id = 0 then
      ⟨{st with parsing_failed := true}, true, oobR, oobS⟩
    else if servoDupId st.servos id then
      ⟨{st with parsing_failed := true}, true, oobR, oobS⟩
    else
      let oobR := oobR || decide (size ≤ count + 5)
      let oobS := oobS || decide (MAX_SLOTS ≤ index)
      let st := {st with servos := st.servos.set index (parsedServo msg count)}
      servoParseLoop msg size st (index + 1) (count + 6) rem oobR oobS

/-- The initialisation loop of `servo_read_frame`:
`for (index = 0; index < MAX_SERVOS; ++index) s.servos[index].id = 0;`. -/
def zeroServoIds (l : List Servo2019) : List Servo2019 :=
  (List.range MAX_SLOTS).foldl (fun acc i => acc.set i {slotAt acc i with id := 0}) l

/-- Result of `servo_read_frame` together with the instrumentation flags. -/
structure ServoReadOut where
  s : SharedServos2019
  oobRead : Bool
  oobStore : Bool
deriving Repr, DecidableEq

/-- `servo_read_frame(message, size)` with the indeterminate initial value of
the local `SharedServos2019 s` passed as `s0`.  Mirrors the source:
reject null or empty input, read the declared count, check
`size == FRAME_SERVO_SIZE(nb_servo) = 1 + nb_servo * 6`, zero all slot
identifiers, run the parsing loop, and on full success clear the failure
flag and store the count. -/
def servo_read_frame_core (s0 : SharedServos2019) (msg : Option (List Nat))
    (size : Nat) : ServoReadOut :=
  match msg with
  | none => ⟨{s0 with parsing_failed := true}, false, false⟩
  | some m =>
    if size = 0 then ⟨{s0 with parsing_failed := true}, false, false⟩
    else
      let oobR0 := decide (size ≤ 0)
      let nb := byteAt m 0
      if size ≠ 1 + nb * 6 then ⟨{s0 with parsing_failed := true}, oobR0, false⟩
      else
        let st := {s0 with servos := zeroServoIds s0.servos}
        let r := servoParseLoop m size st 0 1 nb oobR0 false
        if r.aborted then ⟨r.s, r.oobRead, r.oobStore⟩
        else ⟨{r.s with parsing_failed := false, nb_servos := nb}, r.oobRead, r.oobStore⟩

/-- The collection returned by `servo_read_frame`. -/
def servo_read_frame (s0 : SharedServos2019) (msg : Option (List Nat))
    (size : Nat) : SharedServos2019 :=
  (servo_read_frame_core s0 msg size).s

/-! ## Servo encoder (`servo_write_frame`) -/

/-- High byte emitted by `servo_write_frame` for a 16-bit field:
`(uint8_t)((UINT8_MAX - ((0xff00 & v) >> 8)) ^ UINT8_MAX)`.
The operand is a `uint16_t` field, hence the `% 65536` on the load;
the subtraction stays in `int` and is non-negative here. -/
def encByteHi (v : Nat) : Nat :=
  Nat.xor (255 - (Nat.land 65280 (v % 65536) >>> 8)) 255

/-- Low byte emitted by `servo_write_frame` for a 16-bit field:
`(uint8_t)((UINT8_MAX - v) ^ UINT8_MAX)`.  In C the subtraction is an
`int` subtraction that may be negative; the xor with `0xff` only toggles
the low eight bits, and the final cast keeps the low byte, so the value is
the xor of the low byte of `255 - v` (computed in `Int`) with `255`. -/
def encByteLo (v : Nat) : Nat :=
  Nat.xor (((255 - ((v % 65536 : Nat) : Int)) % 256).toNat) 255

/-- The packed status byte built by `servo_write_frame`:
`infos = command_type; infos <<= 1; infos |= blocked; infos <<= 1;
infos |= blocking_mode; infos <<= 3; infos |= color;` on `uint8_t`. -/
def servoInfos (sv : Servo2019) : Nat :=
  let i0 := sv.command_type % 256
  let i1 := (i0 <<< 1) % 256
  let i2 := i1 ||| (sv.blocked % 256)
  let i3 := (i2 <<< 1) % 256
  let i4 := i3 ||| (sv.blocking_mode % 256)
  let i5 := (i4 <<< 3) % 256
  i5 ||| (sv.color % 256)

/-- The six bytes emitted by `servo_write_frame` for one populated record. -/
def servoEmitRecord (sv : Servo2019) : List Nat :=
  [sv.id % 256, encByteHi sv.position, encByteLo sv.position,
   encByteHi sv.command, encByteLo sv.command, servoInfos sv]

/-- The populated-slot count of `servo_write_frame`:
`for (id = 0; id < MAX_SERVOS; ++id) if (obj->servos[id].id > 0) ++nb_servo;`. -/
def nbServosPopulated (servos : List Servo2019) : Nat :=
  (List.range MAX_SLOTS).foldl
    (fun nb i => if (slotAt servos i).id % 256 > 0 then nb + 1 else nb) 0

/-- The record bytes emitted by the output loop of `servo_write_frame`,
which walks indices `0 .. obj->nb_servos - 1` and emits every slot with a
positive identifier. -/
def servoWriteBody (obj : SharedServos2019) : List Nat :=
  (List.range (obj.nb_servos % 256)).flatMap
    (fun i => if (slotAt obj.servos i).id % 256 > 0
              then servoEmitRecord (slotAt obj.servos i) else [])

/-- Instrumentation for `servo_write_frame`: the output loop reads
`obj->servos[index]` for every `index < obj->nb_servos`, so a slot index
`≥ MAX_SERVOS` is touched exactly when `obj->nb_servos` exceeds 8. -/
def servoWriteOob (obj : SharedServos2019) : Bool :=
  (List.range (obj.nb_servos % 256)).any (fun i => decide (MAX_SLOTS ≤ i))

/-- `servo_write_frame(buf, buf_size, obj)` returning the byte count, the
buffer contents after the call, and the slot-read instrumentation flag.
Mirrors the source: reject null arguments and zero capacity, count the
populated slots, check `buf_size >= FRAME_SERVO_SIZE(nb_servo)`, then emit
the count byte followed by the populated records among the first
`obj->nb_servos` indices. -/
def servo_write_frame_core (buf : Option (List Nat)) (buf_size : Nat)
    (obj : Option SharedServos2019) : Nat × Option (List Nat) × Bool :=
  match buf, obj with
  | some b, some o =>
    if buf_size = 0 then (0, some b, false)
    else
      let nb := nbServosPopulated o.servos
      if buf_size < 1 + nb * 6 then (0, some b, false)
      else
        let out := nb :: servoWriteBody o
        (out.length, some (writeBytes b out), servoWriteOob o)
  | _, _ => (0, buf, false)

/-- `servo_write_frame` as the C caller sees it: bytes written and buffer. -/
def servo_write_frame (buf : Option (List Nat)) (buf_size : Nat)
    (obj : Option SharedServos2019) : Nat × Option (List Nat) :=
  ((servo_write_frame_core buf buf_size obj).1,
   (servo_write_frame_core buf buf_size obj).2.1)

/-! ## Motor decoder (`motor_read_frame`) -/

/-- Record built by the controlled-motor loop from the four bytes at
`count .. count + 3` (status byte: bit 1 = finished, bit 0 = new command). -/
def parsedControlled (msg : List Nat) (count : Nat) : ControlledMotor2019 :=
  let infos := byteAt msg (count + 3)
  { id := byteAt msg count
    wanted_angle_position := byteAt msg (count + 1)
    wanted_nb_turns := byteAt msg (count + 2)
    finished := Nat.land 2 infos >>> 1
    new_command := Nat.land 1 infos }

/-- Record built by the uncontrolled-motor loop from the two bytes at
`count`, `count + 1` (status byte: bit 1 = on/off, bit 0 = rotation). -/
def parsedUncontrolled (msg : List Nat) (count : Nat) : UncontrolledMotor2019 :=
  let infos := byteAt msg (count + 1)
  { id := byteAt msg count
    on_off := Nat.land 2 infos >>> 1
    rotation := Nat.land 1 infos }

/-- Record built by the brushless loop from the two bytes at
`count`, `count + 1` (the second byte is the raw on/off value). -/
def parsedBrushless (msg : List Nat) (count : Nat) : Brushless2019 :=
  { id := byteAt msg count
    on_off := byteAt msg (count + 1) }

/-- Result of one motor parsing loop. -/
structure MotorParseOut where
  s : SharedMotors2019
  aborted : Bool
  oobRead : Bool
  oobStore : Bool
deriving Repr, DecidableEq

/-- The controlled-motor parsing loop of `motor_read_frame`
(4 bytes per record, abort on a zero identifier, no duplicate check). -/
def motorCtrlLoop (msg : List Nat) (size : Nat) (st : SharedMotors2019)
    (index count rem : Nat) (oobR oobS : Bool) : MotorParseOut :=
  match rem with
  | 0 => ⟨st, false, oobR, oobS⟩
  | rem + 1 =>
    let oobR := oobR || decide (size ≤ count)
    let id := byteAt msg count
    if id = 0 then
      ⟨{st with parsing_failed := true}, true, oobR, oobS⟩
    else
      let oobR := oobR || decide (size ≤ count + 3)
      let oobS := oobS || decide (MAX_SLOTS ≤ index)
      let st := {st with controlled_motors := st.controlled_motors.set index (parsedControlled msg count)}
      motorCtrlLoop msg size st (index + 1) (count + 4) rem oobR oobS

/-- The uncontrolled-motor parsing loop of `motor_read_frame` (2 bytes). -/
def motorUnctrlLoop (msg : List Nat) (size : Nat) (st : SharedMotors2019)
    (index count rem : Nat) (oobR oobS : Bool) : MotorParseOut :=
  match rem with
  | 0 => ⟨st, false, oobR, oobS⟩
  | rem + 1 =>
    let oobR := oobR || decide (size ≤ count)
    let id := byteAt msg count
    if id = 0 then
      ⟨{st with parsing_failed := true}, true, oobR, oobS⟩
    else
      let oobR := oobR || decide (size ≤ count + 1)
      let oobS := oobS || decide (MAX_SLOTS ≤ index)
      let st := {st with uncontrolled_motors := st.uncontrolled_motors.set index (parsedUncontrolled msg count)}
      motorUnctrlLoop msg size st (index + 1) (count + 2) rem oobR oobS

/-- The brushless parsing loop of `motor_read_frame` (2 bytes). -/
def motorBrushLoop (msg : List Nat) (size : Nat) (st : SharedMotors2019)
    (index count rem : Nat) (oobR oobS : Bool) : MotorParseOut :=
  match rem with
  | 0 => ⟨st, false, oobR, oobS⟩
  | rem + 1 =>
    let oobR := oobR || decide (size ≤ count)
    let id := byteAt msg count
    if id = 0 then
      ⟨{st with parsing_failed := true}, true, oobR, oobS⟩
    else
      let oobR := oobR || decide (size ≤ count + 1)
      let oobS := oobS || decide (MAX_SLOTS ≤ index)
      let st := {st with brushless := st.brushless.set index (parsedBrushless msg count)}
      motorBrushLoop msg size st (index + 1) (count + 2) rem oobR oobS

/-- Initialisation loop for the controlled-motor identifiers. -/
def zeroControlledIds (l : List ControlledMotor2019) : List ControlledMotor2019 :=
  (List.range MAX_SLOTS).foldl (fun acc i => acc.set i {slotAt acc i with id := 0}) l

/-- Initialisation loop for the uncontrolled-motor identifiers. -/
def zeroUncontrolledIds (l : List UncontrolledMotor2019) : List UncontrolledMotor2019 :=
  (List.range MAX_SLOTS).foldl (fun acc i => acc.set i {slotAt acc i with id := 0}) l

/-- Initialisation loop for the brushless identifiers. -/
def zeroBrushlessIds (l : List Brushless2019) : List Brushless2019 :=
  (List.range MAX_SLOTS).foldl (fun acc i => acc.set i {slotAt acc i with id := 0}) l

/-- Result of `motor_read_frame` together with the instrumentation flags. -/
structure MotorReadOut where
  s : SharedMotors2019
  oobRead : Bool
  oobStore : Bool
deriving Repr, DecidableEq

/-- `motor_read_frame(message, size)` with the indeterminate initial value of
the local struct passed as `s0`.  Mirrors the source: reject null input or
`size < 3`, read the three counts, check
`size == FRAME_MOTOR_SIZE(c, u, b) = 3 + 4c + 2u + 2b`, zero all slot
identifiers, run the three loops in order, and on full success clear the
failure flag. -/
def motor_read_frame_core (s0 : SharedMotors2019) (msg : Option (List Nat))
    (size : Nat) : MotorReadOut :=
  match msg with
  | none => ⟨{s0 with parsing_failed := true}, false, false⟩
  | some m =>
    if size < 3 then ⟨{s0 with parsing_failed := true}, false, false⟩
    else
      let oobR0 := decide (size ≤ 0) || decide (size ≤ 1) || decide (size ≤ 2)
      let nbc := byteAt m 0
      let nbu := byteAt m 1
      let nbb := byteAt m 2
      if size ≠ 3 + nbc * 4 + nbu * 2 + nbb * 2 then
        ⟨{s0 with parsing_failed := true}, oobR0, false⟩
      else
        let st := {s0 with controlled_motors := zeroControlledIds s0.controlled_motors,
                           uncontrolled_motors := zeroUncontrolledIds s0.uncontrolled_motors,
                           brushless := zeroBrushlessIds s0.brushless}
        let r1 := motorCtrlLoop m size st 0 3 nbc oobR0 false
        if r1.aborted then ⟨r1.s, r1.oobRead, r1.oobStore⟩
        else
          let r2 := motorUnctrlLoop m size r1.s 0 (3 + nbc * 4) nbu r1.oobRead r1.oobStore
          if r2.aborted then ⟨r2.s, r2.oobRead, r2.oobStore⟩
          else
            let r3 := motorBrushLoop m size r2.s 0 (3 + nbc * 4 + nbu * 2) nbb
                        r2.oobRead r2.oobStore
            if r3.aborted then ⟨r3.s, r3.oobRead, r3.oobStore⟩
            else ⟨{r3.s with parsing_failed := false}, r3.oobRead, r3.oobStore⟩

/-- The collection returned by `motor_read_frame`. -/
def motor_read_frame (s0 : SharedMotors2019) (msg : Option (List Nat))
    (size : Nat) : SharedMotors2019 :=
  (motor_read_frame_core s0 msg size).s

/-! ## Motor encoder (`motor_write_frame`) -/

/-- Populated-slot count for the controlled motors. -/
def nbControlledPopulated (l : List ControlledMotor2019) : Nat :=
  (List.range MAX_SLOTS).foldl
    (fun nb i => if (slotAt l i).id % 256 > 0 then nb + 1 else nb) 0

/-- Populated-slot count for the uncontrolled motors. -/
def nbUncontrolledPopulated (l : List UncontrolledMotor2019) : Nat :=
  (List.range MAX_SLOTS).foldl
    (fun nb i => if (slotAt l i).id % 256 > 0 then nb + 1 else nb) 0

/-- Populated-slot count for the brushless motors. -/
def nbBrushlessPopulated (l : List Brushless2019) : Nat :=
  (List.range MAX_SLOTS).foldl
    (fun nb i => if (slotAt l i).id % 256 > 0 then nb + 1 else nb) 0

/-- The four bytes emitted for one populated controlled motor
(`infos = finished; infos <<= 1; infos |= new_command;`). -/
def controlledEmitRecord (r : ControlledMotor2019) : List Nat :=
  [r.id % 256, r.wanted_angle_position % 256, r.wanted_nb_turns % 256,
   ((r.finished % 256) <<< 1) % 256 ||| (r.new_command % 256)]

/-- The two bytes emitted for one populated uncontrolled motor
(`infos = on_off; infos <<= 1; infos |= rotation;`). -/
def uncontrolledEmitRecord (r : UncontrolledMotor2019) : List Nat :=
  [r.id % 256, ((r.on_off % 256) <<< 1) % 256 ||| (r.rotation % 256)]

/-- The two bytes emitted for one populated brushless motor. -/
def brushlessEmitRecord (r : Brushless2019) : List Nat :=
  [r.id % 256, r.on_off % 256]

/-- The record bytes emitted by the three output loops of
`motor_write_frame`, each walking all `MAX_*` = 8 indices. -/
def motorWriteBody (o : SharedMotors2019) : List Nat :=
  (List.range MAX_SLOTS).flatMap
    (fun i => if (slotAt o.controlled_motors i).id % 256 > 0
              then controlledEmitRecord (slotAt o.controlled_motors i) else [])
  ++ (List.range MAX_SLOTS).flatMap
    (fun i => if (slotAt o.uncontrolled_motors i).id % 256 > 0
              then uncontrolledEmitRecord (slotAt o.uncontrolled_motors i) else [])
  ++ (List.range MAX_SLOTS).flatMap
    (fun i => if (slotAt o.brushless i).id % 256 > 0
              then brushlessEmitRecord (slotAt o.brushless i) else [])

/-- `motor_write_frame(buf, buf_size, obj)`: reject null arguments and zero
capacity, count the populated slots of the three sub-collections, check
`buf_size >= FRAME_MOTOR_SIZE(c, u, b)`, then emit the three count bytes
followed by the populated records. -/
def motor_write_frame (buf : Option (List Nat)) (buf_size : Nat)
    (obj : Option SharedMotors2019) : Nat × Option (List Nat) :=
  match buf, obj with
  | some b, some o =>
    if buf_size = 0 then (0, some b)
    else
      let nbc := nbControlledPopulated o.controlled_motors
      let nbu := nbUncontrolledPopulated o.uncontrolled_motors
      let nbb := nbBrushlessPopulated o.brushless
      if buf_size < 3 + nbc * 4 + nbu * 2 + nbb * 2 then (0, some b)
      else
        let out := nbc :: nbu :: nbb :: motorWriteBody o
        (out.length, some (writeBytes b out))
  | _, _ => (0, buf)

/-! ## IO codec (`io_read_frame`, `io_write_frame`) -/

/-- `io_read_frame(message, size)` with the indeterminate initial value of
the local struct passed as `s0`: null or empty input fails, otherwise the
first byte is taken as the switch state. -/
def io_read_frame (s0 : SharedIO2019) (msg : Option (List Nat))
    (size : Nat) : SharedIO2019 :=
  match msg with
  | none => {s0 with parsing_failed := true}
  | some m =>
    if size = 0 then {s0 with parsing_failed := true}
    else {s0 with tirette := byteAt m 0, parsing_failed := false}

/-- `io_write_frame(buf, buf_size, obj)`: null arguments or zero capacity
return 0; otherwise `buf[0] = obj->tirette; return 1;`. -/
def io_write_frame (buf : Option (List Nat)) (buf_size : Nat)
    (obj : Option SharedIO2019) : Nat × Option (List Nat) :=
  match buf, obj with
  | some b, some o =>
    if buf_size = 0 then (0, some b)
    else (1, some (writeBytes b [o.tirette % 256]))
  | _, _ => (0, buf)

/-! ## Auxiliary definitions used by the theorems -/

/-- Writing the parsed records for indices `i .. i + rem - 1` into the slot
list, as the successful iterations of the servo parsing loop do. -/
def writeParsed (msg : List Nat) (l : List Servo2019) (i rem : Nat) : List Servo2019 :=
  match rem with
  | 0 => l
  | rem + 1 => writeParsed msg (l.set i (parsedServo msg (1 + 6 * i))) (i + 1) rem

/-- The populated records of a servo collection in emission order: the slots
with positive identifier among the first `nb_servos` array positions. -/
def servoPopulatedList (obj : SharedServos2019) : List Servo2019 :=
  ((List.range (obj.nb_servos % 256)).filter
    (fun i => (slotAt obj.servos i).id % 256 > 0)).map (fun i => slotAt obj.servos i)

/-- An all-default servo collection (every slot empty). -/
def emptyServos : SharedServos2019 :=
  { servos := List.replicate 8 default, nb_servos := 0, parsing_failed := false }

/-- An all-default motor collection. -/
def emptyMotors : SharedMotors2019 :=
  { controlled_motors := List.replicate 8 default
    uncontrolled_motors := List.replicate 8 default
    brushless := List.replicate 8 default
    parsing_failed := false }

/-- A 55-byte servo frame whose header declares 9 records with distinct
non-zero identifiers `1 .. 9`; it passes the length check of
`servo_read_frame` because `size` is only a `uint8_t`. -/
def servoOverflowFrame : List Nat :=
  9 :: (List.range 9).flatMap (fun i => [i + 1, 0, 0, 0, 0, 0])

/-- A 39-byte motor frame whose header declares 9 controlled motors with
distinct non-zero identifiers `1 .. 9`. -/
def motorOverflowFrame : List Nat :=
  [9, 0, 0] ++ (List.range 9).flatMap (fun i => [i + 1, 0, 0, 0])

/-- A servo collection whose only populated slot sits at index 0 while
`nb_servos` is 0: the encoder counts it but never emits it. -/
def strayServoObj : SharedServos2019 :=
  { servos := ({ id := 1, position := 0, command := 0, command_type := 0,
                 blocked := 0, blocking_mode := 0, color := 0 } : Servo2019)
               :: List.replicate 7 default
    nb_servos := 0
    parsing_failed := false }

/-- The servo record of the worked example of the specification:
identifier 3, position 1000, command 1000, speed command, blocking mode 1,
color 5. -/
def exServo : Servo2019 :=
  { id := 3, position := 1000, command := 1000, command_type := 1,
    blocked := 0, blocking_mode := 1, color := 5 }

/-- A servo collection holding only the example record, at slot 0. -/
def exServoObj : SharedServos2019 :=
  { servos := exServo :: List.replicate 7 default
    nb_servos := 1
    parsing_failed := false }

/-! ## Generic list lemmas -/

theorem slotAt_set {α : Type} [Inhabited α] :
    ∀ (l : List α) (i t : Nat) (v : α),
      slotAt (l.set i v) t = if i = t ∧ i < l.length then v else slotAt l t := by
  intro l
  induction l with
  | nil => intro i t v; simp [slotAt]
  | cons a l ih =>
    intro i t v
    cases i with
    | zero =>
      cases t with
      | zero => simp [slotAt]
      | succ t => simp [slotAt, List.set]
    | succ i =>
      cases t with
      | zero => simp [slotAt, List.set]
      | succ t =>
        simp only [List.set, slotAt, List.getD_cons_succ, List.length_cons]
        have := ih i t v
        simp only [slotAt] at this
        rw [this]
        by_cases h : i = t ∧ i < l.length
        · simp [h]
        · have : ¬(i + 1 = t + 1 ∧ i + 1 < l.length + 1) := by omega
          simp [h, this]

theorem slotAt_set_self {α : Type} [Inhabited α] (l : List α) (i : Nat) (v : α)
    (h : i < l.length) : slotAt (l.set i v) i = v := by
  rw [slotAt_set]; simp [h]

theorem slotAt_set_ne {α : Type} [Inhabited α] (l : List α) (i t : Nat) (v : α)
    (h : i ≠ t) : slotAt (l.set i v) t = slotAt l t := by
  rw [slotAt_set]; simp [h]

theorem foldl_count {α : Type} (p : α → Bool) :
    ∀ (l : List α) (a : Nat),
      l.foldl (fun n x => if p x then n + 1 else n) a = a + l.countP p := by
  intro l
  induction l with
  | nil => intro a; simp
  | cons x l ih =>
    intro a
    by_cases h : p x
    · simp [h, ih, List.countP_cons]; omega
    · simp [h, ih, List.countP_cons]

theorem countP_range_eq_of_ge (p : Nat → Bool) :
    ∀ (m n : Nat), n ≤ m → (∀ i, n ≤ i → i < m → p i = false) →
      (List.range m).countP p = (List.range n).countP p := by
  intro m
  induction m with
  | zero => intro n hn _; interval_cases n; rfl
  | succ m ih =>
    intro n hn hp
    rcases Nat.lt_or_ge n (m + 1) with h | h
    · have hnm : n ≤ m := by omega
      rw [List.range_succ, List.countP_append]
      have hm : p m = false := hp m hnm (by omega)
      simp [hm, List.countP_cons, ih n hnm (fun i h1 h2 => hp i h1 (by omega))]
    · have : n = m + 1 := by omega
      subst this; rfl

theorem length_flatMap_guard {α : Type} (f : Nat → List α) (p : Nat → Bool) (k : Nat)
    (hf : ∀ i, p i = true → (f i).length = k) :
    ∀ l : List Nat,
      (l.flatMap (fun i => if p i then f i else [])).length = k * l.countP p := by
  intro l
  induction l with
  | nil => simp
  | cons a l ih =>
    by_cases h : p a
    · simp [List.flatMap_cons, h, ih, List.countP_cons, hf a h]; ring
    · simp [List.flatMap_cons, h, ih, List.countP_cons]

theorem flatMap_guard_eq {α : Type} (f : Nat → List α) (p : Nat → Bool) :
    ∀ l : List Nat,
      l.flatMap (fun i => if p i then f i else []) = (l.filter p).flatMap f := by
  intro l
  induction l with
  | nil => rfl
  | cons a l ih =>
    by_cases h : p a
    · simp [List.flatMap_cons, h, ih, List.filter_cons]
    · simp [List.flatMap_cons, h, ih, List.filter_cons]

theorem flatMap_of_map {α β γ : Type} (g : α → β) (f : β → List γ) :
    ∀ l : List α, (l.map g).flatMap f = l.flatMap (fun x => f (g x)) := by
  intro l
  induction l with
  | nil => rfl
  | cons a l ih => simp [List.flatMap_cons, ih]

/-! ## Byte-level lemmas -/

theorem shiftLeft_lor_eq_add : ∀ (n a b : Nat), b < 2 ^ n → (a <<< n) ||| b = a * 2 ^ n + b := by
  intro n
  induction n with
  | zero =>
    intro a b hb
    interval_cases b
    simp [Nat.shiftLeft_eq]
  | succ n ih =>
    intro a b hb
    have hb2 : b >>> 1 < 2 ^ n := by
      rw [Nat.shiftRight_one]
      omega
    have hbit : Nat.bit (decide (b % 2 = 1)) (b >>> 1) = b :=
      Nat.bit_decide_mod_two_eq_one_shiftRight_one b
    have hsl : a <<< (n + 1) = Nat.bit false (a <<< n) := by
      simp [Nat.shiftLeft_eq, Nat.bit, pow_succ]
      ring
    have hkey : a * (2 ^ n * 2) = 2 * (a * 2 ^ n) := by ring
    calc (a <<< (n + 1)) ||| b
        = Nat.bit false (a <<< n) ||| Nat.bit (decide (b % 2 = 1)) (b >>> 1) := by
          rw [hsl, hbit]
      _ = Nat.bit (false || decide (b % 2 = 1)) ((a <<< n) ||| (b >>> 1)) :=
          Nat.lor_bit _ _ _ _
      _ = 2 * ((a <<< n) ||| (b >>> 1)) + (decide (b % 2 = 1)).toNat := by
          rw [Nat.bit_val, Bool.false_or]
      _ = 2 * (a * 2 ^ n + b >>> 1) + (decide (b % 2 = 1)).toNat := by
          rw [ih a _ hb2]
      _ = a * 2 ^ (n + 1) + b := by
          rcases Nat.mod_two_eq_zero_or_one b with h | h <;>
            simp [h, Nat.shiftRight_one, pow_succ, hkey] <;> omega

set_option maxRecDepth 10000 in
theorem byte_complement (x : Nat) (hx : x < 256) : Nat.xor (255 - x) 255 = x := by
  revert x; decide

theorem land_hi_byte (q : Nat) (hq : q < 65536) : Nat.land 65280 q >>> 8 = q / 256 := by
  have h1 : Nat.land 65280 q >>> 8 = (q >>> 8) &&& 255 := by
    apply Nat.eq_of_testBit_eq
    intro j
    have h255 : Nat.testBit 255 j = decide (j < 8) := by
      have h : (255 : Nat) = 2 ^ 8 - 1 := by norm_num
      rw [h, Nat.testBit_two_pow_sub_one]
    have h65280 : Nat.testBit 65280 (8 + j) = decide (j < 8) := by
      have h : (65280 : Nat) = (2 ^ 8 - 1) <<< 8 := by decide
      rw [h, Nat.testBit_shiftLeft, Nat.testBit_two_pow_sub_one]
      rcases Nat.lt_or_ge j 8 with hj | hj <;> simp [hj]
    show Nat.testBit (Nat.land 65280 q >>> 8) j = _
    rw [Nat.testBit_shiftRight]
    show Nat.testBit (65280 &&& q) (8 + j) = _
    rw [Nat.testBit_and, Nat.testBit_and, Nat.testBit_shiftRight, h255, h65280,
      Bool.and_comm]
  rw [h1]
  have h2 : (255 : Nat) = 2 ^ 8 - 1 := by norm_num
  rw [h2, Nat.and_pow_two_sub_one_eq_mod, Nat.shiftRight_eq_div_pow]
  norm_num
  omega

theorem encByteHi_eq (v : Nat) : encByteHi v = v % 65536 / 256 := by
  unfold encByteHi
  rw [land_hi_byte (v % 65536) (Nat.mod_lt _ (by norm_num))]
  exact byte_complement _ (by omega)

theorem encByteLo_eq (v : Nat) : encByteLo v = v % 256 := by
  unfold encByteLo
  have h1 : (((255 - ((v % 65536 : Nat) : Int)) % 256).toNat) = 255 - v % 65536 % 256 := by
    omega
  rw [h1]
  have h2 : v % 65536 % 256 = v % 256 := Nat.mod_mod_of_dvd v (by norm_num)
  rw [h2]
  exact byte_complement _ (by omega)

theorem servoInfos_eq (r : Servo2019) (hw : wfServo r) :
    servoInfos r = r.command_type * 32 + r.blocked * 16 + r.blocking_mode * 8 + r.color := by
  obtain ⟨-, -, -, h4, h5, h6, h7⟩ := hw
  show ((((((r.command_type % 256) <<< 1) % 256 ||| r.blocked % 256) <<< 1) % 256
          ||| r.blocking_mode % 256) <<< 3) % 256 ||| r.color % 256 = _
  have e4 : r.command_type % 256 = r.command_type := Nat.mod_eq_of_lt (by omega)
  have e5 : r.blocked % 256 = r.blocked := Nat.mod_eq_of_lt (by omega)
  have e6 : r.blocking_mode % 256 = r.blocking_mode := Nat.mod_eq_of_lt (by omega)
  have e7 : r.color % 256 = r.color := Nat.mod_eq_of_lt (by omega)
  rw [e4, e5, e6, e7]
  have s1 : r.command_type <<< 1 = r.command_type * 2 := by
    rw [Nat.shiftLeft_eq]
  have m1 : (r.command_type <<< 1) % 256 = r.command_type <<< 1 :=
    Nat.mod_eq_of_lt (by rw [s1]; omega)
  rw [m1]
  have l1 : (r.command_type <<< 1) ||| r.blocked = r.command_type * 2 + r.blocked := by
    have := shiftLeft_lor_eq_add 1 r.command_type r.blocked (by simpa using h5)
    simpa using this
  rw [l1]
  have s2 : (r.command_type * 2 + r.blocked) <<< 1 = (r.command_type * 2 + r.blocked) * 2 := by
    rw [Nat.shiftLeft_eq]
  have m2 : ((r.command_type * 2 + r.blocked) <<< 1) % 256
      = (r.command_type * 2 + r.blocked) <<< 1 := Nat.mod_eq_of_lt (by rw [s2]; omega)
  rw [m2]
  have l2 : ((r.command_type * 2 + r.blocked) <<< 1) ||| r.blocking_mode
      = (r.command_type * 2 + r.blocked) * 2 + r.blocking_mode := by
    have := shiftLeft_lor_eq_add 1 (r.command_type * 2 + r.blocked) r.blocking_mode
      (by simpa using h6)
    simpa using this
  rw [l2]
  have s3 : ((r.command_type * 2 + r.blocked) * 2 + r.blocking_mode) <<< 3
      = ((r.command_type * 2 + r.blocked) * 2 + r.blocking_mode) * 8 := by
    rw [Nat.shiftLeft_eq]
  have m3 : (((r.command_type * 2 + r.blocked) * 2 + r.blocking_mode) <<< 3) % 256
      = ((r.command_type * 2 + r.blocked) * 2 + r.blocking_mode) <<< 3 :=
    Nat.mod_eq_of_lt (by rw [s3]; omega)
  rw [m3]
  have l3 : (((r.command_type * 2 + r.blocked) * 2 + r.blocking_mode) <<< 3) ||| r.color
      = ((r.command_type * 2 + r.blocked) * 2 + r.blocking_mode) * 8 + r.color := by
    have := shiftLeft_lor_eq_add 3 ((r.command_type * 2 + r.blocked) * 2 + r.blocking_mode)
      r.color (by simpa using h7)
    simpa using this
  rw [l3]
  ring

set_option maxRecDepth 10000 in
theorem servoInfos_unpack :
    ∀ ct, ct < 2 → ∀ bl, bl < 2 → ∀ bm, bm < 2 → ∀ co, co < 8 →
      Nat.land 32 (ct * 32 + bl * 16 + bm * 8 + co) >>> 5 = ct ∧
      Nat.land 16 (ct * 32 + bl * 16 + bm * 8 + co) >>> 4 = bl ∧
      Nat.land 8 (ct * 32 + bl * 16 + bm * 8 + co) >>> 3 = bm ∧
      Nat.land 7 (ct * 32 + bl * 16 + bm * 8 + co) = co := by decide

theorem hi_lo_recompose (p : Nat) (hp : p < 65536) :
    ((p / 256) <<< 8) % 65536 ||| (p % 256) = p := by
  have h1 : (p / 256) <<< 8 = p / 256 * 256 := by
    rw [Nat.shiftLeft_eq]
  have h2 : ((p / 256) <<< 8) % 65536 = (p / 256) <<< 8 :=
    Nat.mod_eq_of_lt (by rw [h1]; omega)
  rw [h2]
  have h3 := shiftLeft_lor_eq_add 8 (p / 256) (p % 256) (by norm_num; omega)
  rw [h3]
  norm_num
  omega

theorem servoEmit_byte_lt (r : Servo2019) (hw : wfServo r) :
    ∀ k, k < 6 → (servoEmitRecord r).getD k 0 < 256 := by
  obtain ⟨h1, h2, h3, h4, h5, h6, h7⟩ := hw
  intro k hk
  interval_cases k
  · show r.id % 256 < 256; omega
  · show encByteHi r.position < 256
    rw [encByteHi_eq]; omega
  · show encByteLo r.position < 256
    rw [encByteLo_eq]; omega
  · show encByteHi r.command < 256
    rw [encByteHi_eq]; omega
  · show encByteLo r.command < 256
    rw [encByteLo_eq]; omega
  · show servoInfos r < 256
    rw [servoInfos_eq r ⟨h1, h2, h3, h4, h5, h6, h7⟩]; omega

theorem parsedServo_of_emit (msg : List Nat) (count : Nat) (r : Servo2019)
    (hw : wfServo r)
    (hb : ∀ k, k < 6 → byteAt msg (count + k) = (servoEmitRecord r).getD k 0) :
    parsedServo msg count = r := by
  obtain ⟨h1, h2, h3, h4, h5, h6, h7⟩ := hw
  have b0 : byteAt msg count = r.id % 256 := by
    have := hb 0 (by omega); simpa using this
  have b1 : byteAt msg (count + 1) = encByteHi r.position := hb 1 (by omega)
  have b2 : byteAt msg (count + 2) = encByteLo r.position := hb 2 (by omega)
  have b3 : byteAt msg (count + 3) = encByteHi r.command := hb 3 (by omega)
  have b4 : byteAt msg (count + 4) = encByteLo r.command := hb 4 (by omega)
  have b5 : byteAt msg (count + 5) = servoInfos r := hb 5 (by omega)
  have hinfos : servoInfos r
      = r.command_type * 32 + r.blocked * 16 + r.blocking_mode * 8 + r.color :=
    servoInfos_eq r ⟨h1, h2, h3, h4, h5, h6, h7⟩
  obtain ⟨u1, u2, u3, u4⟩ := servoInfos_unpack r.command_type h4 r.blocked h5
    r.blocking_mode h6 r.color h7
  show ({ id := byteAt msg count
          position := (byteAt msg (count + 1) <<< 8) % 65536 ||| byteAt msg (count + 2)
          command := (byteAt msg (count + 3) <<< 8) % 65536 ||| byteAt msg (count + 4)
          command_type := Nat.land 32 (byteAt msg (count + 5)) >>> 5
          blocked := Nat.land 16 (byteAt msg (count + 5)) >>> 4
          blocking_mode := Nat.land 8 (byteAt msg (count + 5)) >>> 3
          color := Nat.land 7 (byteAt msg (count + 5)) } : Servo2019) = r
  rw [b0, b1, b2, b3, b4, b5, hinfos]
  have hpos : (encByteHi r.position <<< 8) % 65536 ||| encByteLo r.position = r.position := by
    rw [encByteHi_eq, encByteLo_eq, Nat.mod_eq_of_lt h2]
    exact hi_lo_recompose r.position h2
  have hcmd : (encByteHi r.command <<< 8) % 65536 ||| encByteLo r.command = r.command := by
    rw [encByteHi_eq, encByteLo_eq, Nat.mod_eq_of_lt h3]
    exact hi_lo_recompose r.command h3
  cases r with
  | mk id position command command_type blocked blocking_mode color =>
    simp only [Servo2019.mk.injEq]
    refine ⟨by simpa using Nat.mod_eq_of_lt h1, by simpa using hpos, by simpa using hcmd,
      by simpa using u1, by simpa using u2, by simpa using u3, by simpa using u4⟩

theorem getD_flatMap_emit :
    ∀ (recs : List Servo2019) (j k : Nat), j < recs.length → k < 6 →
      (recs.flatMap servoEmitRecord).getD (6 * j + k) 0
        = (servoEmitRecord (recs.getD j default)).getD k 0 := by
  intro recs
  induction recs with
  | nil => intro j k hj _; simp at hj
  | cons r recs ih =>
    intro j k hj hk
    cases j with
    | zero =>
      simp only [List.flatMap_cons, Nat.mul_zero, Nat.zero_add, List.getD_cons_zero]
      exact List.getD_append _ _ _ _ (by show k < (servoEmitRecord r).length; simp [servoEmitRecord]; omega)
    | succ j =>
      have h6 : (servoEmitRecord r).length = 6 := rfl
      rw [List.flatMap_cons, List.getD_append_right _ _ _ _ (by rw [h6]; omega),
        List.getD_cons_succ]
      have harith : 6 * (j + 1) + k - (servoEmitRecord r).length = 6 * j + k := by
        rw [h6]; ring_nf; omega
      rw [harith]
      exact ih j k (by simpa using hj) hk

theorem writeParsed_length (msg : List Nat) :
    ∀ (rem i : Nat) (l : List Servo2019), (writeParsed msg l i rem).length = l.length := by
  intro rem
  induction rem with
  | zero => intro i l; rfl
  | succ rem ih =>
    intro i l
    show (writeParsed msg (l.set i (parsedServo msg (1 + 6 * i))) (i + 1) rem).length = _
    rw [ih]; simp

theorem slotAt_writeParsed_out (msg : List Nat) :
    ∀ (rem i t : Nat) (l : List Servo2019), t < i ∨ i + rem ≤ t →
      slotAt (writeParsed msg l i rem) t = slotAt l t := by
  intro rem
  induction rem with
  | zero => intro i t l _; rfl
  | succ rem ih =>
    intro i t l h
    show slotAt (writeParsed msg (l.set i (parsedServo msg (1 + 6 * i))) (i + 1) rem) t = _
    rw [ih (i + 1) t _ (by omega), slotAt_set_ne _ _ _ _ (by omega)]

theorem slotAt_writeParsed_in (msg : List Nat) :
    ∀ (rem i t : Nat) (l : List Servo2019), i ≤ t → t < i + rem → t < l.length →
      slotAt (writeParsed msg l i rem) t = parsedServo msg (1 + 6 * t) := by
  intro rem
  induction rem with
  | zero => intro i t l h1 h2 _; omega
  | succ rem ih =>
    intro i t l h1 h2 hlen
    show slotAt (writeParsed msg (l.set i (parsedServo msg (1 + 6 * i))) (i + 1) rem) t = _
    rcases Nat.eq_or_lt_of_le h1 with heq | hlt
    · subst heq
      rw [slotAt_writeParsed_out msg rem (i + 1) i _ (by omega),
        slotAt_set_self _ _ _ hlen]
    · rw [ih (i + 1) t _ (by omega) (by omega) (by simpa using hlen)]

theorem list_eight {α : Type} (l : List α) (h : l.length = 8) :
    ∃ x0 x1 x2 x3 x4 x5 x6 x7, l = [x0, x1, x2, x3, x4, x5, x6, x7] := by
  rcases l with _ | ⟨x0, l⟩
  · simp at h
  rcases l with _ | ⟨x1, l⟩
  · simp at h
  rcases l with _ | ⟨x2, l⟩
  · simp at h
  rcases l with _ | ⟨x3, l⟩
  · simp at h
  rcases l with _ | ⟨x4, l⟩
  · simp at h
  rcases l with _ | ⟨x5, l⟩
  · simp at h
  rcases l with _ | ⟨x6, l⟩
  · simp at h
  rcases l with _ | ⟨x7, l⟩
  · simp at h
  rcases l with _ | ⟨x8, l⟩
  · exact ⟨x0, x1, x2, x3, x4, x5, x6, x7, rfl⟩
  · simp at h

theorem zeroServoIds_length (l : List Servo2019) (h : l.length = 8) :
    (zeroServoIds l).length = 8 := by
  obtain ⟨x0, x1, x2, x3, x4, x5, x6, x7, rfl⟩ := list_eight l h
  rfl

theorem zeroServoIds_slot (l : List Servo2019) (h : l.length = 8) :
    ∀ t, t < 8 → (slotAt (zeroServoIds l) t).id = 0 := by
  obtain ⟨x0, x1, x2, x3, x4, x5, x6, x7, rfl⟩ := list_eight l h
  intro t ht
  interval_cases t <;> rfl

theorem servoDupId_eq_false (servos : List Servo2019) (idv : Nat)
    (h : ∀ t, t < MAX_SLOTS → (slotAt servos t).id ≠ idv) :
    servoDupId servos idv = false := by
  unfold servoDupId
  rw [List.any_eq_false]
  intro j hj
  have hne := h j (List.mem_range.mp hj)
  simpa using hne

theorem servoDupId_eq_true (servos : List Servo2019) (idv t : Nat)
    (ht : t < MAX_SLOTS) (h : (slotAt servos t).id = idv) :
    servoDupId servos idv = true := by
  unfold servoDupId
  rw [List.any_eq_true]
  exact ⟨t, List.mem_range.mpr ht, by simp [h]⟩

theorem servoParseLoop_flags (msg : List Nat) (size : Nat) :
    ∀ (rem i count : Nat) (st : SharedServos2019) (o1 o2 o3 o4 : Bool),
      (servoParseLoop msg size st i count rem o1 o2).s
        = (servoParseLoop msg size st i count rem o3 o4).s ∧
      (servoParseLoop msg size st i count rem o1 o2).aborted
        = (servoParseLoop msg size st i count rem o3 o4).aborted := by
  intro rem
  induction rem with
  | zero => intro i count st o1 o2 o3 o4; exact ⟨rfl, rfl⟩
  | succ rem ih =>
    intro i count st o1 o2 o3 o4
    by_cases h0 : byteAt msg count = 0
    · simp [servoParseLoop, h0]
    · rcases hdup : servoDupId st.servos (byteAt msg count) with hd | hd
      · simp only [servoParseLoop, h0, hdup]
        simp only [if_false, Bool.false_eq_true, ite_false]
        exact ih (i + 1) (count + 6) _ _ _ _ _
      · simp [servoParseLoop, h0, hdup]

theorem servoParseLoop_abort_step (msg : List Nat) (size : Nat)
    (st : SharedServos2019) (i count rem : Nat) (oobR oobS : Bool)
    (h : byteAt msg count = 0 ∨ servoDupId st.servos (byteAt msg count) = true) :
    (servoParseLoop msg size st i count (rem + 1) oobR oobS).s
      = {st with parsing_failed := true} ∧
    (servoParseLoop msg size st i count (rem + 1) oobR oobS).aborted = true := by
  by_cases h0 : byteAt msg count = 0
  · simp [servoParseLoop, h0]
  · have hdup : servoDupId st.servos (byteAt msg count) = true := by tauto
    simp [servoParseLoop, h0, hdup]

theorem servoParseLoop_oobRead (msg : List Nat) (size : Nat) :
    ∀ (rem count i : Nat) (st : SharedServos2019) (oobS : Bool),
      count + 6 * rem ≤ size →
      (servoParseLoop msg size st i count rem false oobS).oobRead = false := by
  intro rem
  induction rem with
  | zero => intro count i st oS _; rfl
  | succ rem ih =>
    intro count i st oS hsz
    have hc : ¬(size ≤ count) := by omega
    have hc5 : ¬(size ≤ count + 5) := by omega
    by_cases h0 : byteAt msg count = 0
    · simp [servoParseLoop, h0, hc]
    · rcases hdup : servoDupId st.servos (byteAt msg count) with hd | hd
      · simp only [servoParseLoop, h0, hdup]
        simp only [if_false, Bool.false_eq_true, ite_false, hc, hc5, decide_eq_false,
          Bool.or_false]
        exact ih (count + 6) (i + 1) _ _ (by omega)
      · simp [servoParseLoop, h0, hdup, hc]

theorem servoParseLoop_run (msg : List Nat) (size : Nat) :
    ∀ (a b i : Nat) (st : SharedServos2019) (oobR oobS : Bool),
      (∀ j, i ≤ j → j < i + a → byteAt msg (1 + 6 * j) ≠ 0) →
      (∀ j j', i ≤ j' → j' < j → j < i + a →
        byteAt msg (1 + 6 * j') ≠ byteAt msg (1 + 6 * j)) →
      (∀ t, t < MAX_SLOTS → ∀ j, i ≤ j → j < i + a →
        (slotAt st.servos t).id ≠ byteAt msg (1 + 6 * j)) →
      (servoParseLoop msg size st i (1 + 6 * i) (a + b) oobR oobS).s
        = (servoParseLoop msg size {st with servos := writeParsed msg st.servos i a}
            (i + a) (1 + 6 * (i + a)) b false false).s ∧
      (servoParseLoop msg size st i (1 + 6 * i) (a + b) oobR oobS).aborted
        = (servoParseLoop msg size {st with servos := writeParsed msg st.servos i a}
            (i + a) (1 + 6 * (i + a)) b false false).aborted := by
  intro a
  induction a with
  | zero =>
    intro b i st oR oS h1 h2 h3
    simp only [Nat.zero_add, Nat.add_zero]
    exact servoParseLoop_flags msg size b i (1 + 6 * i) st oR oS false false
  | succ a ih =>
    intro b i st oR oS h1 h2 h3
    have hid : byteAt msg (1 + 6 * i) ≠ 0 := h1 i (le_refl i) (by omega)
    have hdup : servoDupId st.servos (byteAt msg (1 + 6 * i)) = false :=
      servoDupId_eq_false _ _ (fun t ht => h3 t ht i (le_refl i) (by omega))
    have hstep : (a + 1) + b = (a + b) + 1 := by omega
    rw [hstep]
    simp only [servoParseLoop, hid, hdup]
    simp only [if_false, Bool.false_eq_true, ite_false]
    have harith : 1 + 6 * i + 6 = 1 + 6 * (i + 1) := by omega
    rw [harith]
    have e1 : i + (a + 1) = (i + 1) + a := by omega
    rw [e1]
    have h1n : ∀ j, i + 1 ≤ j → j < (i + 1) + a → byteAt msg (1 + 6 * j) ≠ 0 :=
      fun j hj1 hj2 => h1 j (by omega) (by omega)
    have h2n : ∀ j j', i + 1 ≤ j' → j' < j → j < (i + 1) + a →
        byteAt msg (1 + 6 * j') ≠ byteAt msg (1 + 6 * j) :=
      fun j j' ha hb hc => h2 j j' (by omega) hb (by omega)
    have h3n : ∀ t, t < MAX_SLOTS → ∀ j, i + 1 ≤ j → j < (i + 1) + a →
        (slotAt ({st with servos := st.servos.set i (parsedServo msg (1 + 6 * i))}
          : SharedServos2019).servos t).id ≠ byteAt msg (1 + 6 * j) := by
      intro t ht j hj1 hj2
      show (slotAt (st.servos.set i (parsedServo msg (1 + 6 * i))) t).id ≠ _
      rw [slotAt_set]
      by_cases hcase : i = t ∧ i < st.servos.length
      · obtain ⟨heq, hlen⟩ := hcase
        subst heq
        rw [if_pos ⟨rfl, hlen⟩]
        show byteAt msg (1 + 6 * i) ≠ byteAt msg (1 + 6 * j)
        exact h2 j i (le_refl i) (by omega) (by omega)
      · rw [if_neg hcase]
        exact h3 t ht j (by omega) (by omega)
    exact ih b (i + 1) _ _ _ h1n h2n h3n

theorem foldl_count_ite {α : Type} (p : α → Prop) [DecidablePred p] :
    ∀ (l : List α) (a : Nat),
      l.foldl (fun n x => if p x then n + 1 else n) a
        = a + l.countP (fun x => decide (p x)) := by
  intro l
  induction l with
  | nil => simp
  | cons x l ih =>
    intro a
    by_cases h : p x
    · simp [h, ih, List.countP_cons]; omega
    · simp [h, ih, List.countP_cons]

theorem length_flatMap_ite {α : Type} (f : Nat → List α) (p : Nat → Prop)
    [DecidablePred p] (k : Nat) (hf : ∀ i, p i → (f i).length = k) :
    ∀ l : List Nat,
      (l.flatMap (fun i => if p i then f i else [])).length
        = k * l.countP (fun i => decide (p i)) := by
  intro l
  induction l with
  | nil => simp
  | cons a l ih =>
    by_cases h : p a
    · simp [List.flatMap_cons, h, ih, List.countP_cons, hf a h]; ring
    · simp [List.flatMap_cons, h, ih, List.countP_cons]

theorem flatMap_ite_eq {α : Type} (f : Nat → List α) (p : Nat → Prop) [DecidablePred p] :
    ∀ l : List Nat,
      l.flatMap (fun i => if p i then f i else [])
        = (l.filter (fun i => decide (p i))).flatMap f := by
  intro l
  induction l with
  | nil => rfl
  | cons a l ih =>
    by_cases h : p a
    · simp [List.flatMap_cons, h, ih, List.filter_cons]
    · simp [List.flatMap_cons, h, ih, List.filter_cons]

theorem nbServosPopulated_eq_countP (servos : List Servo2019) :
    nbServosPopulated servos
      = (List.range MAX_SLOTS).countP
          (fun i => decide ((slotAt servos i).id % 256 > 0)) := by
  unfold nbServosPopulated
  have := foldl_count_ite (fun i => (slotAt servos i).id % 256 > 0) (List.range MAX_SLOTS) 0
  simpa using this

theorem nbServosPopulated_le (servos : List Servo2019) :
    nbServosPopulated servos ≤ 8 := by
  rw [nbServosPopulated_eq_countP]
  have h := List.countP_le_length
    (p := fun i => decide ((slotAt servos i).id % 256 > 0)) (l := List.range MAX_SLOTS)
  simpa [MAX_SLOTS] using h

theorem servoWriteBody_eq (o : SharedServos2019) :
    servoWriteBody o = (servoPopulatedList o).flatMap servoEmitRecord := by
  unfold servoWriteBody servoPopulatedList
  rw [flatMap_ite_eq (fun i => servoEmitRecord (slotAt o.servos i))
      (fun i => (slotAt o.servos i).id % 256 > 0) (List.range (o.nb_servos % 256)),
    flatMap_of_map]

theorem servoPopulatedList_mem (o : SharedServos2019) :
    ∀ r, r ∈ servoPopulatedList o → r.id % 256 > 0 := by
  intro r hr
  unfold servoPopulatedList at hr
  obtain ⟨i, hi, rfl⟩ := List.mem_map.mp hr
  exact of_decide_eq_true (List.mem_filter.mp hi).2

theorem servoPopulatedList_length (o : SharedServos2019)
    (hnb : o.nb_servos ≤ 8)
    (hbelow : ∀ i, i < 8 → (slotAt o.servos i).id % 256 > 0 → i < o.nb_servos) :
    (servoPopulatedList o).length = nbServosPopulated o.servos := by
  unfold servoPopulatedList
  rw [List.length_map, ← List.countP_eq_length_filter, nbServosPopulated_eq_countP]
  have hmod : o.nb_servos % 256 = o.nb_servos := Nat.mod_eq_of_lt (by omega)
  rw [hmod]
  have := countP_range_eq_of_ge (fun i => decide ((slotAt o.servos i).id % 256 > 0))
    MAX_SLOTS o.nb_servos (by simpa [MAX_SLOTS] using hnb) ?_
  · exact this.symm
  · intro i hi1 hi2
    simp only [decide_eq_false_iff_not]
    intro hpop
    have := hbelow i (by simpa [MAX_SLOTS] using hi2) hpop
    omega

theorem servoWriteBody_length (o : SharedServos2019)
    (hnb : o.nb_servos ≤ 8)
    (hbelow : ∀ i, i < 8 → (slotAt o.servos i).id % 256 > 0 → i < o.nb_servos) :
    (servoWriteBody o).length = 6 * nbServosPopulated o.servos := by
  rw [servoWriteBody_eq]
  have h6 : ∀ r : Servo2019, (servoEmitRecord r).length = 6 := fun r => rfl
  have hlen : ((servoPopulatedList o).flatMap servoEmitRecord).length
      = 6 * (servoPopulatedList o).length := by
    induction servoPopulatedList o with
    | nil => rfl
    | cons r recs ih => simp [List.flatMap_cons, ih, h6]; ring
  rw [hlen, servoPopulatedList_length o hnb hbelow]

theorem writeBytes_take (b out : List Nat) : (writeBytes b out).take out.length = out := by
  unfold writeBytes
  exact List.take_left out (b.drop out.length)

theorem servo_write_frame_core_spec (b : List Nat) (cap : Nat) (o : SharedServos2019)
    (hcap : 1 + nbServosPopulated o.servos * 6 ≤ cap) :
    servo_write_frame_core (some b) cap (some o)
      = ((nbServosPopulated o.servos :: servoWriteBody o).length,
         some (writeBytes b (nbServosPopulated o.servos :: servoWriteBody o)),
         servoWriteOob o) := by
  unfold servo_write_frame_core
  have h0 : ¬(cap = 0) := by omega
  have h1 : ¬(cap < 1 + nbServosPopulated o.servos * 6) := by omega
  simp [h0, h1]

theorem byteAt_encoded (nb : Nat) (recs : List Servo2019)
    (hw : ∀ r, r ∈ recs → wfServo r) (j k : Nat) (hj : j < recs.length) (hk : k < 6) :
    byteAt (nb :: recs.flatMap servoEmitRecord) (1 + (6 * j + k))
      = (servoEmitRecord (recs.getD j default)).getD k 0 := by
  unfold byteAt
  rw [show 1 + (6 * j + k) = (6 * j + k) + 1 by omega, List.getD_cons_succ,
    getD_flatMap_emit recs j k hj hk]
  have hmem : recs.getD j default ∈ recs := by
    rw [List.getD_eq_getElem recs default hj]
    exact List.getElem_mem hj
  exact Nat.mod_eq_of_lt (servoEmit_byte_lt _ (hw _ hmem) k hk)

theorem servo_roundtrip (x s0 : SharedServos2019)
    (hs08 : s0.servos.length = 8)
    (hnb : x.nb_servos ≤ 8)
    (hbelow : ∀ i, i < 8 → (slotAt x.servos i).id % 256 > 0 → i < x.nb_servos)
    (hwf : ∀ r, r ∈ servoPopulatedList x → wfServo r)
    (hdist : (servoPopulatedList x).Pairwise (fun r1 r2 => r1.id ≠ r2.id)) :
    (servo_read_frame s0 (some (nbServosPopulated x.servos :: servoWriteBody x))
        (1 + 6 * nbServosPopulated x.servos)).parsing_failed = false ∧
    (servo_read_frame s0 (some (nbServosPopulated x.servos :: servoWriteBody x))
        (1 + 6 * nbServosPopulated x.servos)).nb_servos = nbServosPopulated x.servos ∧
    (∀ k, k < nbServosPopulated x.servos →
      slotAt (servo_read_frame s0 (some (nbServosPopulated x.servos :: servoWriteBody x))
        (1 + 6 * nbServosPopulated x.servos)).servos k
        = (servoPopulatedList x).getD k default) ∧
    (∀ t, nbServosPopulated x.servos ≤ t → t < 8 →
      (slotAt (servo_read_frame s0 (some (nbServosPopulated x.servos :: servoWriteBody x))
        (1 + 6 * nbServosPopulated x.servos)).servos t).id = 0) := by
  have hMle : nbServosPopulated x.servos ≤ 8 := nbServosPopulated_le x.servos
  have hlrecs : (servoPopulatedList x).length = nbServosPopulated x.servos :=
    servoPopulatedList_length x hnb hbelow
  have hbyte : ∀ j k, j < nbServosPopulated x.servos → k < 6 →
      byteAt (nbServosPopulated x.servos :: servoWriteBody x) (1 + (6 * j + k))
        = (servoEmitRecord ((servoPopulatedList x).getD j default)).getD k 0 := by
    intro j k hj hk
    rw [servoWriteBody_eq]
    exact byteAt_encoded _ _ hwf j k (by omega) hk
  have hmemD : ∀ j, j < nbServosPopulated x.servos →
      (servoPopulatedList x).getD j default ∈ servoPopulatedList x := by
    intro j hj
    rw [List.getD_eq_getElem _ default (by omega)]
    exact List.getElem_mem _
  have hidb : ∀ j, j < nbServosPopulated x.servos →
      byteAt (nbServosPopulated x.servos :: servoWriteBody x) (1 + 6 * j)
        = ((servoPopulatedList x).getD j default).id := by
    intro j hj
    have h := hbyte j 0 hj (by omega)
    rw [show 6 * j + 0 = 6 * j by omega] at h
    rw [h]
    show ((servoPopulatedList x).getD j default).id % 256 = _
    exact Nat.mod_eq_of_lt (hwf _ (hmemD j hj)).1
  have hidpos : ∀ j, j < nbServosPopulated x.servos →
      ((servoPopulatedList x).getD j default).id ≠ 0 := by
    intro j hj h0
    have hpos := servoPopulatedList_mem x _ (hmemD j hj)
    rw [h0] at hpos
    simp at hpos
  have hH1 : ∀ j, 0 ≤ j → j < 0 + nbServosPopulated x.servos →
      byteAt (nbServosPopulated x.servos :: servoWriteBody x) (1 + 6 * j) ≠ 0 := by
    intro j _ hj
    rw [hidb j (by omega)]
    exact hidpos j (by omega)
  have hH2 : ∀ j j', 0 ≤ j' → j' < j → j < 0 + nbServosPopulated x.servos →
      byteAt (nbServosPopulated x.servos :: servoWriteBody x) (1 + 6 * j')
        ≠ byteAt (nbServosPopulated x.servos :: servoWriteBody x) (1 + 6 * j) := by
    intro j j' _ hj1 hj2
    rw [hidb j' (by omega), hidb j (by omega)]
    have hne := List.pairwise_iff_getElem.mp hdist j' j (by omega) (by omega) hj1
    rw [List.getD_eq_getElem _ default (show j' < (servoPopulatedList x).length by omega),
      List.getD_eq_getElem _ default (show j < (servoPopulatedList x).length by omega)]
    exact hne
  have hzero : ∀ t, t < 8 → (slotAt (zeroServoIds s0.servos) t).id = 0 :=
    zeroServoIds_slot s0.servos hs08
  have hH3 : ∀ t, t < MAX_SLOTS → ∀ j, 0 ≤ j → j < 0 + nbServosPopulated x.servos →
      (slotAt ({s0 with servos := zeroServoIds s0.servos}
        : SharedServos2019).servos t).id
        ≠ byteAt (nbServosPopulated x.servos :: servoWriteBody x) (1 + 6 * j) := by
    intro t ht j _ hj
    show (slotAt (zeroServoIds s0.servos) t).id ≠ _
    rw [hzero t (by simpa [MAX_SLOTS] using ht), hidb j (by omega)]
    exact fun h => hidpos j (by omega) h.symm
  obtain ⟨hs, hab⟩ := servoParseLoop_run
    (nbServosPopulated x.servos :: servoWriteBody x) (1 + 6 * nbServosPopulated x.servos)
    (nbServosPopulated x.servos) 0 0
    {s0 with servos := zeroServoIds s0.servos}
    (decide ((1 + 6 * nbServosPopulated x.servos) ≤ 0)) false hH1 hH2 hH3
  simp only [Nat.mul_zero, Nat.add_zero, Nat.zero_add] at hs hab
  simp only [servoParseLoop] at hs hab
  have hhdr : byteAt (nbServosPopulated x.servos :: servoWriteBody x) 0
      = nbServosPopulated x.servos := by
    show (nbServosPopulated x.servos :: servoWriteBody x).getD 0 0 % 256 = _
    rw [List.getD_cons_zero]
    exact Nat.mod_eq_of_lt (by omega)
  have hsz : ¬(1 + 6 * nbServosPopulated x.servos = 0) := by omega
  have hchk : ¬(1 + 6 * nbServosPopulated x.servos
      ≠ 1 + byteAt (nbServosPopulated x.servos :: servoWriteBody x) 0 * 6) := by
    rw [hhdr]; omega
  unfold servo_read_frame servo_read_frame_core
  simp only [hsz, if_false, ite_false, hchk, Decidable.not_not]
  rw [hhdr]
  rw [hs, hab]
  simp only [Bool.false_eq_true, if_false, ite_false]
  refine ⟨by trivial, by trivial, ?_, ?_⟩
  · intro k hk
    show slotAt (writeParsed (nbServosPopulated x.servos :: servoWriteBody x)
      (zeroServoIds s0.servos) 0 (nbServosPopulated x.servos)) k = _
    rw [slotAt_writeParsed_in _ _ _ _ _ (by omega) (by omega)
      (by rw [zeroServoIds_length s0.servos hs08]; omega)]
    apply parsedServo_of_emit _ _ _ (hwf _ (hmemD k hk))
    intro k' hk'
    rw [show 1 + 6 * k + k' = 1 + (6 * k + k') by omega]
    exact hbyte k k' hk hk'
  · intro t ht1 ht2
    show (slotAt (writeParsed (nbServosPopulated x.servos :: servoWriteBody x)
      (zeroServoIds s0.servos) 0 (nbServosPopulated x.servos)) t).id = 0
    rw [slotAt_writeParsed_out _ _ _ _ _ (by omega)]
    exact hzero t ht2

/-- C5: a servo frame whose first offending record (zero identifier, or an
identifier equal to an earlier record) sits at index `k` makes
`servo_read_frame` set the failure flag and abort there: no record from
index `k` on is stored (their slots keep identifier 0). -/
theorem servo_decode_abort (s0 : SharedServos2019) (msg : List Nat) (nb k : Nat)
    (hs08 : s0.servos.length = 8)
    (hhdr : byteAt msg 0 = nb)
    (hnb : nb ≤ 8)
    (hk : k < nb)
    (hoff : byteAt msg (1 + 6 * k) = 0 ∨
      ∃ j, j < k ∧ byteAt msg (1 + 6 * j) = byteAt msg (1 + 6 * k))
    (hmin : ∀ j, j < k →
      byteAt msg (1 + 6 * j) ≠ 0 ∧
      ∀ j', j' < j → byteAt msg (1 + 6 * j') ≠ byteAt msg (1 + 6 * j)) :
    (servo_read_frame s0 (some msg) (1 + 6 * nb)).parsing_failed = true ∧
    ∀ t, k ≤ t → t < 8 →
      (slotAt (servo_read_frame s0 (some msg) (1 + 6 * nb)).servos t).id = 0 := by
  have hzero : ∀ t, t < 8 → (slotAt (zeroServoIds s0.servos) t).id = 0 :=
    zeroServoIds_slot s0.servos hs08
  have hH1 : ∀ j, 0 ≤ j → j < 0 + k → byteAt msg (1 + 6 * j) ≠ 0 :=
    fun j _ hj => (hmin j (by omega)).1
  have hH2 : ∀ j j', 0 ≤ j' → j' < j → j < 0 + k →
      byteAt msg (1 + 6 * j') ≠ byteAt msg (1 + 6 * j) :=
    fun j j' _ hj1 hj2 => (hmin j (by omega)).2 j' hj1
  have hH3 : ∀ t, t < MAX_SLOTS → ∀ j, 0 ≤ j → j < 0 + k →
      (slotAt ({s0 with servos := zeroServoIds s0.servos}
        : SharedServos2019).servos t).id ≠ byteAt msg (1 + 6 * j) := by
    intro t ht j _ hj
    show (slotAt (zeroServoIds s0.servos) t).id ≠ _
    rw [hzero t (by simpa [MAX_SLOTS] using ht)]
    exact fun h => (hmin j (by omega)).1 h.symm
  obtain ⟨hs, hab⟩ := servoParseLoop_run msg (1 + 6 * nb) k (nb - k) 0
    {s0 with servos := zeroServoIds s0.servos}
    (decide ((1 + 6 * nb) ≤ 0)) false hH1 hH2 hH3
  simp only [Nat.zero_add, Nat.mul_zero, Nat.add_zero] at hs hab
  rw [show k + (nb - k) = nb by omega] at hs hab
  have hwplen : (writeParsed msg (zeroServoIds s0.servos) 0 k).length = 8 := by
    rw [writeParsed_length, zeroServoIds_length s0.servos hs08]
  have hcond : byteAt msg (1 + 6 * k) = 0 ∨
      servoDupId (writeParsed msg (zeroServoIds s0.servos) 0 k)
        (byteAt msg (1 + 6 * k)) = true := by
    rcases hoff with h | ⟨j, hj, heq⟩
    · exact Or.inl h
    · refine Or.inr (servoDupId_eq_true _ _ j (by simp [MAX_SLOTS]; omega) ?_)
      rw [slotAt_writeParsed_in msg k 0 j (zeroServoIds s0.servos) (by omega) (by omega)
        (by rw [zeroServoIds_length s0.servos hs08]; omega)]
      show byteAt msg (1 + 6 * j) = _
      exact heq
  have hrem : nb - k = (nb - k - 1) + 1 := by omega
  rw [hrem] at hs hab
  obtain ⟨habS, habA⟩ := servoParseLoop_abort_step msg (1 + 6 * nb)
    {s0 with servos := writeParsed msg (zeroServoIds s0.servos) 0 k}
    k (1 + 6 * k) (nb - k - 1) false false hcond
  have hsFinal := hs.trans habS
  have habFinal := hab.trans habA
  have hsz : ¬(1 + 6 * nb = 0) := by omega
  have hchk : ¬(1 + 6 * nb ≠ 1 + byteAt msg 0 * 6) := by rw [hhdr]; omega
  unfold servo_read_frame servo_read_frame_core
  simp only [hsz, if_false, ite_false, hchk, Decidable.not_not]
  rw [hhdr]
  rw [hsFinal, habFinal]
  simp only [if_true, ite_true]
  refine ⟨by trivial, ?_⟩
  intro t ht1 ht2
  show (slotAt (writeParsed msg (zeroServoIds s0.servos) 0 k) t).id = 0
  rw [slotAt_writeParsed_out msg k 0 t _ (by omega)]
  exact hzero t ht2

theorem motorCtrlLoop_success (msg : List Nat) (size : Nat) :
    ∀ (rem i count : Nat) (st : SharedMotors2019) (oR oS : Bool),
      (∀ j, j < rem → byteAt msg (count + 4 * j) ≠ 0) →
      (motorCtrlLoop msg size st i count rem oR oS).aborted = false := by
  intro rem
  induction rem with
  | zero => intro i count st oR oS _; rfl
  | succ rem ih =>
    intro i count st oR oS h
    have h0 : byteAt msg count ≠ 0 := by
      have := h 0 (by omega); simpa using this
    simp only [motorCtrlLoop, h0, if_false, ite_false]
    refine ih _ _ _ _ _ (fun j hj => ?_)
    have := h (j + 1) (by omega)
    rw [show count + 4 * (j + 1) = count + 4 + 4 * j by omega] at this
    exact this

theorem motorUnctrlLoop_success (msg : List Nat) (size : Nat) :
    ∀ (rem i count : Nat) (st : SharedMotors2019) (oR oS : Bool),
      (∀ j, j < rem → byteAt msg (count + 2 * j) ≠ 0) →
      (motorUnctrlLoop msg size st i count rem oR oS).aborted = false := by
  intro rem
  induction rem with
  | zero => intro i count st oR oS _; rfl
  | succ rem ih =>
    intro i count st oR oS h
    have h0 : byteAt msg count ≠ 0 := by
      have := h 0 (by omega); simpa using this
    simp only [motorUnctrlLoop, h0, if_false, ite_false]
    refine ih _ _ _ _ _ (fun j hj => ?_)
    have := h (j + 1) (by omega)
    rw [show count + 2 * (j + 1) = count + 2 + 2 * j by omega] at this
    exact this

theorem motorBrushLoop_success (msg : List Nat) (size : Nat) :
    ∀ (rem i count : Nat) (st : SharedMotors2019) (oR oS : Bool),
      (∀ j, j < rem → byteAt msg (count + 2 * j) ≠ 0) →
      (motorBrushLoop msg size st i count rem oR oS).aborted = false := by
  intro rem
  induction rem with
  | zero => intro i count st oR oS _; rfl
  | succ rem ih =>
    intro i count st oR oS h
    have h0 : byteAt msg count ≠ 0 := by
      have := h 0 (by omega); simpa using this
    simp only [motorBrushLoop, h0, if_false, ite_false]
    refine ih _ _ _ _ _ (fun j hj => ?_)
    have := h (j + 1) (by omega)
    rw [show count + 2 * (j + 1) = count + 2 + 2 * j by omega] at this
    exact this

theorem motorCtrlLoop_abort (msg : List Nat) (size : Nat) :
    ∀ (k rem i count : Nat) (st : SharedMotors2019) (oR oS : Bool),
      k < rem →
      (∀ j, j < k → byteAt msg (count + 4 * j) ≠ 0) →
      byteAt msg (count + 4 * k) = 0 →
      (motorCtrlLoop msg size st i count rem oR oS).aborted = true ∧
      (motorCtrlLoop msg size st i count rem oR oS).s.parsing_failed = true := by
  intro k
  induction k with
  | zero =>
    intro rem i count st oR oS hk _ hzero
    obtain ⟨rem, rfl⟩ : ∃ r, rem = r + 1 := ⟨rem - 1, by omega⟩
    have h0 : byteAt msg count = 0 := by simpa using hzero
    simp [motorCtrlLoop, h0]
  | succ k ih =>
    intro rem i count st oR oS hk hmin hzero
    obtain ⟨rem, rfl⟩ : ∃ r, rem = r + 1 := ⟨rem - 1, by omega⟩
    have h0 : byteAt msg count ≠ 0 := by
      have := hmin 0 (by omega); simpa using this
    simp only [motorCtrlLoop, h0, if_false, ite_false]
    refine ih rem (i + 1) (count + 4) _ _ _ (by omega) (fun j hj => ?_) ?_
    · have := hmin (j + 1) (by omega)
      rw [show count + 4 * (j + 1) = count + 4 + 4 * j by omega] at this
      exact this
    · rw [show count + 4 + 4 * k = count + 4 * (k + 1) by omega]
      exact hzero

theorem motorUnctrlLoop_abort (msg : List Nat) (size : Nat) :
    ∀ (k rem i count : Nat) (st : SharedMotors2019) (oR oS : Bool),
      k < rem →
      (∀ j, j < k → byteAt msg (count + 2 * j) ≠ 0) →
      byteAt msg (count + 2 * k) = 0 →
      (motorUnctrlLoop msg size st i count rem oR oS).aborted = true ∧
      (motorUnctrlLoop msg size st i count rem oR oS).s.parsing_failed = true := by
  intro k
  induction k with
  | zero =>
    intro rem i count st oR oS hk _ hzero
    obtain ⟨rem, rfl⟩ : ∃ r, rem = r + 1 := ⟨rem - 1, by omega⟩
    have h0 : byteAt msg count = 0 := by simpa using hzero
    simp [motorUnctrlLoop, h0]
  | succ k ih =>
    intro rem i count st oR oS hk hmin hzero
    obtain ⟨rem, rfl⟩ : ∃ r, rem = r + 1 := ⟨rem - 1, by omega⟩
    have h0 : byteAt msg count ≠ 0 := by
      have := hmin 0 (by omega); simpa using this
    simp only [motorUnctrlLoop, h0, if_false, ite_false]
    refine ih rem (i + 1) (count + 2) _ _ _ (by omega) (fun j hj => ?_) ?_
    · have := hmin (j + 1) (by omega)
      rw [show count + 2 * (j + 1) = count + 2 + 2 * j by omega] at this
      exact this
    · rw [show count + 2 + 2 * k = count + 2 * (k + 1) by omega]
      exact hzero

theorem motorBrushLoop_abort (msg : List Nat) (size : Nat) :
    ∀ (k rem i count : Nat) (st : SharedMotors2019) (oR oS : Bool),
      k < rem →
      (∀ j, j < k → byteAt msg (count + 2 * j) ≠ 0) →
      byteAt msg (count + 2 * k) = 0 →
      (motorBrushLoop msg size st i count rem oR oS).aborted = true ∧
      (motorBrushLoop msg size st i count rem oR oS).s.parsing_failed = true := by
  intro k
  induction k with
  | zero =>
    intro rem i count st oR oS hk _ hzero
    obtain ⟨rem, rfl⟩ : ∃ r, rem = r + 1 := ⟨rem - 1, by omega⟩
    have h0 : byteAt msg count = 0 := by simpa using hzero
    simp [motorBrushLoop, h0]
  | succ k ih =>
    intro rem i count st oR oS hk hmin hzero
    obtain ⟨rem, rfl⟩ : ∃ r, rem = r + 1 := ⟨rem - 1, by omega⟩
    have h0 : byteAt msg count ≠ 0 := by
      have := hmin 0 (by omega); simpa using this
    simp only [motorBrushLoop, h0, if_false, ite_false]
    refine ih rem (i + 1) (count + 2) _ _ _ (by omega) (fun j hj => ?_) ?_
    · have := hmin (j + 1) (by omega)
      rw [show count + 2 * (j + 1) = count + 2 + 2 * j by omega] at this
      exact this
    · rw [show count + 2 + 2 * k = count + 2 * (k + 1) by omega]
      exact hzero

theorem motorCtrlLoop_oobRead (msg : List Nat) (size : Nat) :
    ∀ (rem count i : Nat) (st : SharedMotors2019) (oS : Bool),
      count + 4 * rem ≤ size →
      (motorCtrlLoop msg size st i count rem false oS).oobRead = false := by
  intro rem
  induction rem with
  | zero => intro count i st oS _; rfl
  | succ rem ih =>
    intro count i st oS hsz
    have hc : ¬(size ≤ count) := by omega
    have hc3 : ¬(size ≤ count + 3) := by omega
    by_cases h0 : byteAt msg count = 0
    · simp [motorCtrlLoop, h0, hc]
    · simp only [motorCtrlLoop, h0, if_false, ite_false, hc, hc3, decide_eq_false,
        Bool.or_false]
      exact ih (count + 4) (i + 1) _ _ (by omega)

theorem motorUnctrlLoop_oobRead (msg : List Nat) (size : Nat) :
    ∀ (rem count i : Nat) (st : SharedMotors2019) (oS : Bool),
      count + 2 * rem ≤ size →
      (motorUnctrlLoop msg size st i count rem false oS).oobRead = false := by
  intro rem
  induction rem with
  | zero => intro count i st oS _; rfl
  | succ rem ih =>
    intro count i st oS hsz
    have hc : ¬(size ≤ count) := by omega
    have hc1 : ¬(size ≤ count + 1) := by omega
    by_cases h0 : byteAt msg count = 0
    · simp [motorUnctrlLoop, h0, hc]
    · simp only [motorUnctrlLoop, h0, if_false, ite_false, hc, hc1, decide_eq_false,
        Bool.or_false]
      exact ih (count + 2) (i + 1) _ _ (by omega)

theorem motorBrushLoop_oobRead (msg : List Nat) (size : Nat) :
    ∀ (rem count i : Nat) (st : SharedMotors2019) (oS : Bool),
      count + 2 * rem ≤ size →
      (motorBrushLoop msg size st i count rem false oS).oobRead = false := by
  intro rem
  induction rem with
  | zero => intro count i st oS _; rfl
  | succ rem ih =>
    intro count i st oS hsz
    have hc : ¬(size ≤ count) := by omega
    have hc1 : ¬(size ≤ count + 1) := by omega
    by_cases h0 : byteAt msg count = 0
    · simp [motorBrushLoop, h0, hc]
    · simp only [motorBrushLoop, h0, if_false, ite_false, hc, hc1, decide_eq_false,
        Bool.or_false]
      exact ih (count + 2) (i + 1) _ _ (by omega)

theorem nbControlledPopulated_eq_countP (l : List ControlledMotor2019) :
    nbControlledPopulated l
      = (List.range MAX_SLOTS).countP (fun i => decide ((slotAt l i).id % 256 > 0)) := by
  unfold nbControlledPopulated
  have := foldl_count_ite (fun i => (slotAt l i).id % 256 > 0) (List.range MAX_SLOTS) 0
  simpa using this

theorem nbUncontrolledPopulated_eq_countP (l : List UncontrolledMotor2019) :
    nbUncontrolledPopulated l
      = (List.range MAX_SLOTS).countP (fun i => decide ((slotAt l i).id % 256 > 0)) := by
  unfold nbUncontrolledPopulated
  have := foldl_count_ite (fun i => (slotAt l i).id % 256 > 0) (List.range MAX_SLOTS) 0
  simpa using this

theorem nbBrushlessPopulated_eq_countP (l : List Brushless2019) :
    nbBrushlessPopulated l
      = (List.range MAX_SLOTS).countP (fun i => decide ((slotAt l i).id % 256 > 0)) := by
  unfold nbBrushlessPopulated
  have := foldl_count_ite (fun i => (slotAt l i).id % 256 > 0) (List.range MAX_SLOTS) 0
  simpa using this

theorem motorWriteBody_length (o : SharedMotors2019) :
    (motorWriteBody o).length
      = 4 * nbControlledPopulated o.controlled_motors
        + 2 * nbUncontrolledPopulated o.uncontrolled_motors
        + 2 * nbBrushlessPopulated o.brushless := by
  unfold motorWriteBody
  rw [List.length_append, List.length_append]
  rw [length_flatMap_ite (fun i => controlledEmitRecord (slotAt o.controlled_motors i))
      (fun i => (slotAt o.controlled_motors i).id % 256 > 0) 4 (fun i _ => rfl),
    length_flatMap_ite (fun i => uncontrolledEmitRecord (slotAt o.uncontrolled_motors i))
      (fun i => (slotAt o.uncontrolled_motors i).id % 256 > 0) 2 (fun i _ => rfl),
    length_flatMap_ite (fun i => brushlessEmitRecord (slotAt o.brushless i))
      (fun i => (slotAt o.brushless i).id % 256 > 0) 2 (fun i _ => rfl),
    nbControlledPopulated_eq_countP, nbUncontrolledPopulated_eq_countP,
    nbBrushlessPopulated_eq_countP]

/-! ## Claim theorems -/

/-- C8: the double bit-complement applied by `servo_write_frame` to the
position and command fields is a semantic no-op: for every 16-bit value the
two emitted bytes are the plain big-endian representation, and
`(255 - x) XOR 255 = x` for every 8-bit `x`. -/
theorem servo_write_double_complement_noop :
    (∀ v, v < 65536 → encByteHi v = v / 256 ∧ encByteLo v = v % 256) ∧
    (∀ x, x < 256 → Nat.xor (255 - x) 255 = x) := by
  constructor
  · intro v hv
    constructor
    · rw [encByteHi_eq, Nat.mod_eq_of_lt hv]
    · rw [encByteLo_eq]
  · exact byte_complement

set_option maxRecDepth 4000 in
/-- Witness for C8 at the concrete field value 1000 and byte 200. -/
theorem servo_write_double_complement_noop_witness :
    (1000 < 65536 ∧ encByteHi 1000 = 1000 / 256 ∧ encByteLo 1000 = 1000 % 256) ∧
    (200 < 256 ∧ Nat.xor (255 - 200) 255 = 200) :=
  ⟨⟨by decide, servo_write_double_complement_noop.1 1000 (by decide)⟩,
   ⟨by decide, servo_write_double_complement_noop.2 200 (by decide)⟩⟩

/-- C9 (amended): on a null message or a zero length, `servo_read_frame`
returns the uninitialized local struct with only `parsing_failed` set:
every other field keeps whatever indeterminate value the local held, not a
default value. -/
theorem servo_read_invalid_input (s0 : SharedServos2019) (msg : Option (List Nat))
    (size : Nat) (h : msg = none ∨ size = 0) :
    servo_read_frame s0 msg size = {s0 with parsing_failed := true} := by
  rcases h with rfl | rfl
  · rfl
  · cases msg with
    | none => rfl
    | some m => simp [servo_read_frame, servo_read_frame_core]

/-- Witness for C9 at a concrete null call. -/
theorem servo_read_invalid_input_witness :
    ((none : Option (List Nat)) = none ∨ (7 : Nat) = 0) ∧
    servo_read_frame emptyServos none 7 = {emptyServos with parsing_failed := true} :=
  ⟨Or.inl rfl, servo_read_invalid_input emptyServos none 7 (Or.inl rfl)⟩

/-- C9 counterexample: when the caller's uninitialized struct happens to hold
`nb_servos = 5`, the failure result of a null-pointer call still holds 5 in
`nb_servos` instead of the default 0, so the other fields are not default. -/
theorem servo_read_invalid_not_default :
    (servo_read_frame {emptyServos with nb_servos := 5} none 0).parsing_failed = true ∧
    (servo_read_frame {emptyServos with nb_servos := 5} none 0).nb_servos = 5 := by
  constructor
  · rfl
  · rfl

/-- C10: the IO codec contract: decode fails exactly on null or empty input
and otherwise returns the first byte verbatim with the failure flag clear;
encode returns 0 on null arguments or zero capacity and otherwise writes the
single state byte and returns 1. -/
theorem io_codec_contract :
    (∀ (s0 : SharedIO2019) (size : Nat), (io_read_frame s0 none size).parsing_failed = true) ∧
    (∀ (s0 : SharedIO2019) (m : List Nat), (io_read_frame s0 (some m) 0).parsing_failed = true) ∧
    (∀ (s0 : SharedIO2019) (m : List Nat) (size : Nat), size ≠ 0 →
      (io_read_frame s0 (some m) size).parsing_failed = false ∧
      (io_read_frame s0 (some m) size).tirette = byteAt m 0) ∧
    (∀ (s0 : SharedIO2019) (m : List Nat) (size : Nat), size ≠ 0 → m.getD 0 0 < 256 →
      (io_read_frame s0 (some m) size).tirette = m.getD 0 0) ∧
    (∀ (cap : Nat) (o : Option SharedIO2019), io_write_frame none cap o = (0, none)) ∧
    (∀ (b : List Nat) (cap : Nat), io_write_frame (some b) cap none = (0, some b)) ∧
    (∀ (b : List Nat) (o : SharedIO2019), io_write_frame (some b) 0 (some o) = (0, some b)) ∧
    (∀ (b : List Nat) (cap : Nat) (o : SharedIO2019), cap ≠ 0 → o.tirette < 256 →
      io_write_frame (some b) cap (some o) = (1, some (o.tirette :: b.drop 1))) := by
  refine ⟨fun s0 size => rfl, fun s0 m => rfl, ?_, ?_, ?_, ?_, ?_, ?_⟩
  · intro s0 m size hsz
    constructor <;> simp [io_read_frame, hsz]
  · intro s0 m size hsz hb
    simp only [io_read_frame, hsz, if_false, ite_false]
    show byteAt m 0 = m.getD 0 0
    unfold byteAt
    exact Nat.mod_eq_of_lt hb
  · intro cap o
    cases o <;> rfl
  · intro b cap; rfl
  · intro b o; rfl
  · intro b cap o hcap ht
    simp only [io_write_frame, hcap, if_false, ite_false]
    show (1, some (writeBytes b [o.tirette % 256])) = _
    rw [Nat.mod_eq_of_lt ht]
    rfl

/-- Witness for C10 at a concrete one-byte frame and a concrete write. -/
theorem io_codec_contract_witness :
    ((1 : Nat) ≠ 0 ∧ (io_read_frame ⟨0, false⟩ (some [1]) 1).parsing_failed = false ∧
      (io_read_frame ⟨0, false⟩ (some [1]) 1).tirette = byteAt [1] 0) ∧
    ((2 : Nat) ≠ 0 ∧ (1 : Nat) < 256 ∧
      io_write_frame (some [9, 9]) 2 (some ⟨1, false⟩) = (1, some (1 :: [9, 9].drop 1))) :=
  ⟨⟨by decide, io_codec_contract.2.2.1 ⟨0, false⟩ [1] 1 (by decide)⟩,
   ⟨by decide, by decide,
     io_codec_contract.2.2.2.2.2.2.2 [9, 9] 2 ⟨1, false⟩ (by decide) (by decide)⟩⟩

/-- C7: encoding is all-or-nothing: a null buffer, null object, zero
capacity, or capacity strictly below the required frame size makes
`servo_write_frame` and `motor_write_frame` return 0 with the caller's
buffer untouched. -/
theorem write_frame_all_or_nothing :
    (∀ (cap : Nat) (o : Option SharedServos2019), servo_write_frame none cap o = (0, none)) ∧
    (∀ (b : List Nat) (cap : Nat), servo_write_frame (some b) cap none = (0, some b)) ∧
    (∀ (b : List Nat) (cap : Nat) (o : SharedServos2019),
      cap < 1 + nbServosPopulated o.servos * 6 →
      servo_write_frame (some b) cap (some o) = (0, some b)) ∧
    (∀ (cap : Nat) (o : Option SharedMotors2019), motor_write_frame none cap o = (0, none)) ∧
    (∀ (b : List Nat) (cap : Nat), motor_write_frame (some b) cap none = (0, some b)) ∧
    (∀ (b : List Nat) (cap : Nat) (o : SharedMotors2019),
      cap < 3 + nbControlledPopulated o.controlled_motors * 4
        + nbUncontrolledPopulated o.uncontrolled_motors * 2
        + nbBrushlessPopulated o.brushless * 2 →
      motor_write_frame (some b) cap (some o) = (0, some b)) := by
  refine ⟨?_, ?_, ?_, ?_, ?_, ?_⟩
  · intro cap o; cases o <;> rfl
  · intro b cap; rfl
  · intro b cap o hcap
    unfold servo_write_frame servo_write_frame_core
    by_cases h0 : cap = 0
    · simp [h0]
    · simp [h0, hcap]
  · intro cap o; cases o <;> rfl
  · intro b cap; rfl
  · intro b cap o hcap
    unfold motor_write_frame
    by_cases h0 : cap = 0
    · simp [h0]
    · simp [h0, hcap]

/-- Witness for C7: a buffer one byte smaller than required (capacity 6 for
one populated servo, capacity 2 for an empty motor collection). -/
theorem write_frame_all_or_nothing_witness :
    ((6 : Nat) < 1 + nbServosPopulated exServoObj.servos * 6 ∧
      servo_write_frame (some [9, 9, 9, 9, 9, 9]) 6 (some exServoObj) = (0, some [9, 9, 9, 9, 9, 9])) ∧
    ((2 : Nat) < 3 + nbControlledPopulated emptyMotors.controlled_motors * 4
        + nbUncontrolledPopulated emptyMotors.uncontrolled_motors * 2
        + nbBrushlessPopulated emptyMotors.brushless * 2 ∧
      motor_write_frame (some [9, 9]) 2 (some emptyMotors) = (0, some [9, 9])) :=
  ⟨⟨by decide, write_frame_all_or_nothing.2.2.1 [9, 9, 9, 9, 9, 9] 6 exServoObj (by decide)⟩,
   ⟨by decide, write_frame_all_or_nothing.2.2.2.2.2 [9, 9] 2 emptyMotors (by decide)⟩⟩

/-- C3 (amended): when every populated slot lies below `nb_servos` and
`nb_servos` is at most 8, `servo_write_frame` returns exactly `1 + 6 * M`
bytes for `M` populated slots; `motor_write_frame` unconditionally returns
`3 + 4c + 2u + 2b` for the populated counts of its three sub-collections. -/
theorem write_frame_returns_exact_size :
    (∀ (b : List Nat) (cap : Nat) (o : SharedServos2019),
      o.nb_servos ≤ 8 →
      (∀ i, i < 8 → (slotAt o.servos i).id % 256 > 0 → i < o.nb_servos) →
      1 + nbServosPopulated o.servos * 6 ≤ cap →
      (servo_write_frame (some b) cap (some o)).1 = 1 + 6 * nbServosPopulated o.servos) ∧
    (∀ (b : List Nat) (cap : Nat) (o : SharedMotors2019),
      3 + nbControlledPopulated o.controlled_motors * 4
        + nbUncontrolledPopulated o.uncontrolled_motors * 2
        + nbBrushlessPopulated o.brushless * 2 ≤ cap →
      (motor_write_frame (some b) cap (some o)).1
        = 3 + 4 * nbControlledPopulated o.controlled_motors
          + 2 * nbUncontrolledPopulated o.uncontrolled_motors
          + 2 * nbBrushlessPopulated o.brushless) := by
  constructor
  · intro b cap o hnb hbelow hcap
    unfold servo_write_frame
    rw [servo_write_frame_core_spec b cap o hcap]
    show (nbServosPopulated o.servos :: servoWriteBody o).length = _
    rw [List.length_cons, servoWriteBody_length o hnb hbelow]
    omega
  · intro b cap o hcap
    unfold motor_write_frame
    have h0 : ¬(cap = 0) := by omega
    have h1 : ¬(cap < 3 + nbControlledPopulated o.controlled_motors * 4
        + nbUncontrolledPopulated o.uncontrolled_motors * 2
        + nbBrushlessPopulated o.brushless * 2) := by omega
    simp only [h0, h1, if_false, ite_false]
    show (nbControlledPopulated o.controlled_motors :: nbUncontrolledPopulated o.uncontrolled_motors
      :: nbBrushlessPopulated o.brushless :: motorWriteBody o).length = _
    rw [List.length_cons, List.length_cons, List.length_cons, motorWriteBody_length]
    omega

/-- Witness for C3 at the one-servo example and the empty motor collection. -/
theorem write_frame_returns_exact_size_witness :
    (exServoObj.nb_servos ≤ 8 ∧
      (∀ i, i < 8 → (slotAt exServoObj.servos i).id % 256 > 0 → i < exServoObj.nb_servos) ∧
      1 + nbServosPopulated exServoObj.servos * 6 ≤ 16 ∧
      (servo_write_frame (some (List.replicate 16 0)) 16 (some exServoObj)).1
        = 1 + 6 * nbServosPopulated exServoObj.servos) ∧
    (3 + nbControlledPopulated emptyMotors.controlled_motors * 4
        + nbUncontrolledPopulated emptyMotors.uncontrolled_motors * 2
        + nbBrushlessPopulated emptyMotors.brushless * 2 ≤ 3 ∧
      (motor_write_frame (some [0, 0, 0]) 3 (some emptyMotors)).1
        = 3 + 4 * nbControlledPopulated emptyMotors.controlled_motors
          + 2 * nbUncontrolledPopulated emptyMotors.uncontrolled_motors
          + 2 * nbBrushlessPopulated emptyMotors.brushless) :=
  ⟨⟨by decide, by decide, by decide,
    write_frame_returns_exact_size.1 (List.replicate 16 0) 16 exServoObj (by decide)
      (by decide) (by decide)⟩,
   ⟨by decide,
    write_frame_returns_exact_size.2 [0, 0, 0] 3 emptyMotors (by decide)⟩⟩

/-- C3 counterexample: a collection whose only populated slot lies at index 0
while `nb_servos` is 0 is counted (`M = 1`, required size 7) but never
emitted, so `servo_write_frame` returns 1, not `1 + 6 * M = 7`. -/
theorem servo_write_size_mismatch :
    (servo_write_frame (some (List.replicate 7 0)) 7 (some strayServoObj)).1 = 1 ∧
    1 + 6 * nbServosPopulated strayServoObj.servos = 7 := by
  constructor
  · rfl
  · rfl

set_option maxRecDepth 100000 in
/-- C1 fails on the code: a 55-byte servo frame declaring 9 records passes
the `uint8_t` length check and the decoder stores its ninth record at slot
index 8, one past the 8-slot array (the instrumentation flag `oobStore`
fires and the frame is even accepted); the motor decoder does the same for
9 controlled motors, and `servo_write_frame` reads slot index 8 when
`nb_servos` is 9. -/
theorem record_array_access_out_of_bounds :
    (servo_read_frame_core emptyServos (some servoOverflowFrame) 55).oobStore = true ∧
    (servo_read_frame emptyServos (some servoOverflowFrame) 55).parsing_failed = false ∧
    (motor_read_frame_core emptyMotors (some motorOverflowFrame) 39).oobStore = true ∧
    (servo_write_frame_core (some [0]) 1
      (some {emptyServos with nb_servos := 9})).2.2 = true := by
  refine ⟨by decide, by decide, by decide, by decide⟩

/-- C4: for every non-null input whose length differs from the size implied
by its header, `servo_read_frame` and `motor_read_frame` set the failure
flag; and no call of either decoder ever reads a message byte at an offset
at or beyond the provided length (the `oobRead` instrumentation flag is
always false). -/
theorem read_frame_length_mismatch_and_reads_in_bounds :
    (∀ (s0 : SharedServos2019) (m : List Nat) (size : Nat),
      size ≠ 1 + byteAt m 0 * 6 →
      (servo_read_frame s0 (some m) size).parsing_failed = true) ∧
    (∀ (s0 : SharedMotors2019) (m : List Nat) (size : Nat),
      size ≠ 3 + byteAt m 0 * 4 + byteAt m 1 * 2 + byteAt m 2 * 2 →
      (motor_read_frame s0 (some m) size).parsing_failed = true) ∧
    (∀ (s0 : SharedServos2019) (msg : Option (List Nat)) (size : Nat),
      (servo_read_frame_core s0 msg size).oobRead = false) ∧
    (∀ (s0 : SharedMotors2019) (msg : Option (List Nat)) (size : Nat),
      (motor_read_frame_core s0 msg size).oobRead = false) := by
  refine ⟨?_, ?_, ?_, ?_⟩
  · intro s0 m size hne
    unfold servo_read_frame servo_read_frame_core
    by_cases hsz : size = 0
    · simp [hsz]
    · simp [hsz, hne]
  · intro s0 m size hne
    unfold motor_read_frame motor_read_frame_core
    by_cases hsz : size < 3
    · simp [hsz]
    · simp [hsz, hne]
  · intro s0 msg size
    cases msg with
    | none => rfl
    | some m =>
      unfold servo_read_frame_core
      by_cases hsz : size = 0
      · simp [hsz]
      · by_cases hchk : size ≠ 1 + byteAt m 0 * 6
        · have hd0 : ¬(size ≤ 0) := by omega
          simp [hsz, hchk, hd0]
        · have hsize : size = 1 + byteAt m 0 * 6 := by tauto
          have hd0 : decide (size ≤ 0) = false := by simp; omega
          simp only [hsz, if_false, ite_false, hchk, Decidable.not_not]
          rw [hd0]
          have hloop := servoParseLoop_oobRead m size (byteAt m 0) 1 0
            {s0 with servos := zeroServoIds s0.servos} false (by omega)
          split <;> exact hloop
  · intro s0 msg size
    cases msg with
    | none => rfl
    | some m =>
      unfold motor_read_frame_core
      by_cases hsz : size < 3
      · simp [hsz]
      · by_cases hchk : size ≠ 3 + byteAt m 0 * 4 + byteAt m 1 * 2 + byteAt m 2 * 2
        · have hd : (decide (size ≤ 0) || decide (size ≤ 1) || decide (size ≤ 2))
              = false := by simp; omega
          simp only [hsz, if_false, ite_false]
          rw [hd, if_pos hchk]
        · have hsize : size = 3 + byteAt m 0 * 4 + byteAt m 1 * 2 + byteAt m 2 * 2 := by
            tauto
          have hd : (decide (size ≤ 0) || decide (size ≤ 1) || decide (size ≤ 2))
              = false := by simp; omega
          simp only [hsz, if_false, ite_false, hchk, Decidable.not_not]
          rw [hd]
          have h1 : (motorCtrlLoop m size
              {s0 with controlled_motors := zeroControlledIds s0.controlled_motors,
                       uncontrolled_motors := zeroUncontrolledIds s0.uncontrolled_motors,
                       brushless := zeroBrushlessIds s0.brushless}
              0 3 (byteAt m 0) false false).oobRead = false :=
            motorCtrlLoop_oobRead m size _ _ _ _ _ (by omega)
          split
          · exact h1
          · rw [h1]
            have h2 : ∀ st2 oS2, (motorUnctrlLoop m size st2 0 (3 + byteAt m 0 * 4)
                (byteAt m 1) false oS2).oobRead = false :=
              fun st2 oS2 => motorUnctrlLoop_oobRead m size _ _ _ _ _ (by omega)
            split
            · exact h2 _ _
            · rw [h2 _ _]
              have h3 : ∀ st3 oS3, (motorBrushLoop m size st3 0
                  (3 + byteAt m 0 * 4 + byteAt m 1 * 2)
                  (byteAt m 2) false oS3).oobRead = false :=
                fun st3 oS3 => motorBrushLoop_oobRead m size _ _ _ _ _ (by omega)
              split
              · exact h3 _ _
              · exact h3 _ _

/-- Witness for C4: the specification example `[0x02]` (declares 2 servos in
a 1-byte frame) and a 4-byte motor frame declaring no records. -/
theorem read_frame_length_mismatch_witness :
    ((1 : Nat) ≠ 1 + byteAt [2] 0 * 6 ∧
      (servo_read_frame emptyServos (some [2]) 1).parsing_failed = true) ∧
    ((4 : Nat) ≠ 3 + byteAt [0, 0, 0] 0 * 4 + byteAt [0, 0, 0] 1 * 2
        + byteAt [0, 0, 0] 2 * 2 ∧
      (motor_read_frame emptyMotors (some [0, 0, 0]) 4).parsing_failed = true) :=
  ⟨⟨by decide, read_frame_length_mismatch_and_reads_in_bounds.1 emptyServos [2] 1 (by decide)⟩,
   ⟨by decide,
    read_frame_length_mismatch_and_reads_in_bounds.2.1 emptyMotors [0, 0, 0] 4 (by decide)⟩⟩

/-- Witness for C5: the 13-byte frame `[2, 3,_,_,_,_,_, 3,_,_,_,_,_]`
repeats identifier 3 at record index 1; decoding fails and slot 1 onward
stays empty. -/
theorem servo_decode_abort_witness :
    (emptyServos.servos.length = 8 ∧
     byteAt [2, 3, 0, 0, 0, 0, 0, 3, 0, 0, 0, 0, 0] 0 = 2 ∧
     (2 : Nat) ≤ 8 ∧ (1 : Nat) < 2 ∧
     (byteAt [2, 3, 0, 0, 0, 0, 0, 3, 0, 0, 0, 0, 0] (1 + 6 * 1) = 0 ∨
       ∃ j, j < 1 ∧ byteAt [2, 3, 0, 0, 0, 0, 0, 3, 0, 0, 0, 0, 0] (1 + 6 * j)
         = byteAt [2, 3, 0, 0, 0, 0, 0, 3, 0, 0, 0, 0, 0] (1 + 6 * 1))) ∧
    ((servo_read_frame emptyServos (some [2, 3, 0, 0, 0, 0, 0, 3, 0, 0, 0, 0, 0])
        (1 + 6 * 2)).parsing_failed = true ∧
     ∀ t, 1 ≤ t → t < 8 →
       (slotAt (servo_read_frame emptyServos
         (some [2, 3, 0, 0, 0, 0, 0, 3, 0, 0, 0, 0, 0]) (1 + 6 * 2)).servos t).id = 0) :=
  ⟨⟨by decide, by decide, by decide, by decide, Or.inr ⟨0, by decide, by decide⟩⟩,
   servo_decode_abort emptyServos [2, 3, 0, 0, 0, 0, 0, 3, 0, 0, 0, 0, 0] 2 1
     (by decide) (by decide) (by decide) (by decide)
     (Or.inr ⟨0, by decide, by decide⟩)
     (by decide)⟩

/-- C6: `motor_read_frame` fails exactly on zero identifiers, not on
duplicates: for a well-sized motor frame with section counts at most 8, if
all record identifiers are non-zero the failure flag stays clear (no
duplicate check exists), while a zero identifier in any of the three
sections sets it. -/
theorem motor_decode_zero_id_only (s0 : SharedMotors2019) (m : List Nat)
    (hc8 : byteAt m 0 ≤ 8) (hu8 : byteAt m 1 ≤ 8) (hb8 : byteAt m 2 ≤ 8) :
    ((∀ j, j < byteAt m 0 → byteAt m (3 + 4 * j) ≠ 0) →
     (∀ j, j < byteAt m 1 → byteAt m (3 + byteAt m 0 * 4 + 2 * j) ≠ 0) →
     (∀ j, j < byteAt m 2 → byteAt m (3 + byteAt m 0 * 4 + byteAt m 1 * 2 + 2 * j) ≠ 0) →
      (motor_read_frame s0 (some m)
        (3 + byteAt m 0 * 4 + byteAt m 1 * 2 + byteAt m 2 * 2)).parsing_failed = false) ∧
    (((∃ j, j < byteAt m 0 ∧ byteAt m (3 + 4 * j) = 0) ∨
      (∃ j, j < byteAt m 1 ∧ byteAt m (3 + byteAt m 0 * 4 + 2 * j) = 0) ∨
      (∃ j, j < byteAt m 2 ∧ byteAt m (3 + byteAt m 0 * 4 + byteAt m 1 * 2 + 2 * j) = 0)) →
      (motor_read_frame s0 (some m)
        (3 + byteAt m 0 * 4 + byteAt m 1 * 2 + byteAt m 2 * 2)).parsing_failed = true) := by
  have hsz : ¬(3 + byteAt m 0 * 4 + byteAt m 1 * 2 + byteAt m 2 * 2 < 3) := by omega
  have hchk : ¬(3 + byteAt m 0 * 4 + byteAt m 1 * 2 + byteAt m 2 * 2
      ≠ 3 + byteAt m 0 * 4 + byteAt m 1 * 2 + byteAt m 2 * 2) := by omega
  constructor
  · intro hc hu hb
    unfold motor_read_frame motor_read_frame_core
    simp only [hsz, if_false, ite_false, hchk, Decidable.not_not]
    have h1 : ∀ st oR oS, (motorCtrlLoop m
        (3 + byteAt m 0 * 4 + byteAt m 1 * 2 + byteAt m 2 * 2)
        st 0 3 (byteAt m 0) oR oS).aborted = false :=
      fun st oR oS => motorCtrlLoop_success m _ _ _ _ _ _ _ hc
    have h2 : ∀ st oR oS, (motorUnctrlLoop m
        (3 + byteAt m 0 * 4 + byteAt m 1 * 2 + byteAt m 2 * 2)
        st 0 (3 + byteAt m 0 * 4) (byteAt m 1) oR oS).aborted = false :=
      fun st oR oS => motorUnctrlLoop_success m _ _ _ _ _ _ _ hu
    have h3 : ∀ st oR oS, (motorBrushLoop m
        (3 + byteAt m 0 * 4 + byteAt m 1 * 2 + byteAt m 2 * 2)
        st 0 (3 + byteAt m 0 * 4 + byteAt m 1 * 2) (byteAt m 2) oR oS).aborted = false :=
      fun st oR oS => motorBrushLoop_success m _ _ _ _ _ _ _ hb
    rw [if_neg (by rw [h1]; exact Bool.false_ne_true),
      if_neg (by rw [h2]; exact Bool.false_ne_true),
      if_neg (by rw [h3]; exact Bool.false_ne_true)]
  · intro hzero
    unfold motor_read_frame motor_read_frame_core
    simp only [hsz, if_false, ite_false, hchk, Decidable.not_not]
    have hdf : (decide ((3 + byteAt m 0 * 4 + byteAt m 1 * 2 + byteAt m 2 * 2) ≤ 0)
        || decide ((3 + byteAt m 0 * 4 + byteAt m 1 * 2 + byteAt m 2 * 2) ≤ 1)
        || decide ((3 + byteAt m 0 * 4 + byteAt m 1 * 2 + byteAt m 2 * 2) ≤ 2))
        = false := by simp; omega
    rw [hdf]
    by_cases hzc : ∃ j, j < byteAt m 0 ∧ byteAt m (3 + 4 * j) = 0
    · obtain ⟨habort, hfail⟩ := motorCtrlLoop_abort m
        (3 + byteAt m 0 * 4 + byteAt m 1 * 2 + byteAt m 2 * 2)
        (Nat.find hzc) (byteAt m 0) 0 3
        {s0 with controlled_motors := zeroControlledIds s0.controlled_motors,
                 uncontrolled_motors := zeroUncontrolledIds s0.uncontrolled_motors,
                 brushless := zeroBrushlessIds s0.brushless}
        false false (Nat.find_spec hzc).1
        (fun j hj => by
          have hmin := Nat.find_min hzc hj
          have hjlt : j < byteAt m 0 := by
            have := (Nat.find_spec hzc).1
            omega
          tauto)
        (Nat.find_spec hzc).2
      simp [habort, hfail]
    · have hc : ∀ j, j < byteAt m 0 → byteAt m (3 + 4 * j) ≠ 0 := by
        intro j hj hz
        exact hzc ⟨j, hj, hz⟩
      have h1 : ∀ st oR oS, (motorCtrlLoop m
          (3 + byteAt m 0 * 4 + byteAt m 1 * 2 + byteAt m 2 * 2)
          st 0 3 (byteAt m 0) oR oS).aborted = false :=
        fun st oR oS => motorCtrlLoop_success m _ _ _ _ _ _ _ hc
      rw [if_neg (by rw [h1]; exact Bool.false_ne_true)]
      by_cases hzu : ∃ j, j < byteAt m 1 ∧ byteAt m (3 + byteAt m 0 * 4 + 2 * j) = 0
      · obtain ⟨habort, hfail⟩ := motorUnctrlLoop_abort m
          (3 + byteAt m 0 * 4 + byteAt m 1 * 2 + byteAt m 2 * 2)
          (Nat.find hzu) (byteAt m 1) 0 (3 + byteAt m 0 * 4)
          (motorCtrlLoop m
            (3 + byteAt m 0 * 4 + byteAt m 1 * 2 + byteAt m 2 * 2)
            {s0 with controlled_motors := zeroControlledIds s0.controlled_motors,
                     uncontrolled_motors := zeroUncontrolledIds s0.uncontrolled_motors,
                     brushless := zeroBrushlessIds s0.brushless}
            0 3 (byteAt m 0) false false).s (motorCtrlLoop m
            (3 + byteAt m 0 * 4 + byteAt m 1 * 2 + byteAt m 2 * 2)
            {s0 with controlled_motors := zeroControlledIds s0.controlled_motors,
                     uncontrolled_motors := zeroUncontrolledIds s0.uncontrolled_motors,
                     brushless := zeroBrushlessIds s0.brushless}
            0 3 (byteAt m 0) false false).oobRead (motorCtrlLoop m
            (3 + byteAt m 0 * 4 + byteAt m 1 * 2 + byteAt m 2 * 2)
            {s0 with controlled_motors := zeroControlledIds s0.controlled_motors,
                     uncontrolled_motors := zeroUncontrolledIds s0.uncontrolled_motors,
                     brushless := zeroBrushlessIds s0.brushless}
            0 3 (byteAt m 0) false false).oobStore
          (Nat.find_spec hzu).1
          (fun j hj => by
            have hmin := Nat.find_min hzu hj
            have hjlt : j < byteAt m 1 := by
              have := (Nat.find_spec hzu).1
              omega
            tauto)
          (Nat.find_spec hzu).2
        simp [habort, hfail]
      · have hu : ∀ j, j < byteAt m 1 → byteAt m (3 + byteAt m 0 * 4 + 2 * j) ≠ 0 := by
          intro j hj hz
          exact hzu ⟨j, hj, hz⟩
        have h2 : ∀ st oR oS, (motorUnctrlLoop m
            (3 + byteAt m 0 * 4 + byteAt m 1 * 2 + byteAt m 2 * 2)
            st 0 (3 + byteAt m 0 * 4) (byteAt m 1) oR oS).aborted = false :=
          fun st oR oS => motorUnctrlLoop_success m _ _ _ _ _ _ _ hu
        rw [if_neg (by rw [h2]; exact Bool.false_ne_true)]
        have hzb : ∃ j, j < byteAt m 2 ∧
            byteAt m (3 + byteAt m 0 * 4 + byteAt m 1 * 2 + 2 * j) = 0 := by
          rcases hzero with h | h | h
          · exact absurd h hzc
          · exact absurd h hzu
          · exact h
        obtain ⟨habort, hfail⟩ := motorBrushLoop_abort m
          (3 + byteAt m 0 * 4 + byteAt m 1 * 2 + byteAt m 2 * 2)
          (Nat.find hzb) (byteAt m 2) 0 (3 + byteAt m 0 * 4 + byteAt m 1 * 2)
          (motorUnctrlLoop m
              (3 + byteAt m 0 * 4 + byteAt m 1 * 2 + byteAt m 2 * 2)
              (motorCtrlLoop m
            (3 + byteAt m 0 * 4 + byteAt m 1 * 2 + byteAt m 2 * 2)
            {s0 with controlled_motors := zeroControlledIds s0.controlled_motors,
                     uncontrolled_motors := zeroUncontrolledIds s0.uncontrolled_motors,
                     brushless := zeroBrushlessIds s0.brushless}
            0 3 (byteAt m 0) false false).s
              0 (3 + byteAt m 0 * 4) (byteAt m 1) (motorCtrlLoop m
            (3 + byteAt m 0 * 4 + byteAt m 1 * 2 + byteAt m 2 * 2)
            {s0 with controlled_motors := zeroControlledIds s0.controlled_motors,
                     uncontrolled_motors := zeroUncontrolledIds s0.uncontrolled_motors,
                     brushless := zeroBrushlessIds s0.brushless}
            0 3 (byteAt m 0) false false).oobRead (motorCtrlLoop m
            (3 + byteAt m 0 * 4 + byteAt m 1 * 2 + byteAt m 2 * 2)
            {s0 with controlled_motors := zeroControlledIds s0.controlled_motors,
                     uncontrolled_motors := zeroUncontrolledIds s0.uncontrolled_motors,
                     brushless := zeroBrushlessIds s0.brushless}
            0 3 (byteAt m 0) false false).oobStore).s (motorUnctrlLoop m
              (3 + byteAt m 0 * 4 + byteAt m 1 * 2 + byteAt m 2 * 2)
              (motorCtrlLoop m
            (3 + byteAt m 0 * 4 + byteAt m 1 * 2 + byteAt m 2 * 2)
            {s0 with controlled_motors := zeroControlledIds s0.controlled_motors,
                     uncontrolled_motors := zeroUncontrolledIds s0.uncontrolled_motors,
                     brushless := zeroBrushlessIds s0.brushless}
            0 3 (byteAt m 0) false false).s
              0 (3 + byteAt m 0 * 4) (byteAt m 1) (motorCtrlLoop m
            (3 + byteAt m 0 * 4 + byteAt m 1 * 2 + byteAt m 2 * 2)
            {s0 with controlled_motors := zeroControlledIds s0.controlled_motors,
                     uncontrolled_motors := zeroUncontrolledIds s0.uncontrolled_motors,
                     brushless := zeroBrushlessIds s0.brushless}
            0 3 (byteAt m 0) false false).oobRead (motorCtrlLoop m
            (3 + byteAt m 0 * 4 + byteAt m 1 * 2 + byteAt m 2 * 2)
            {s0 with controlled_motors := zeroControlledIds s0.controlled_motors,
                     uncontrolled_motors := zeroUncontrolledIds s0.uncontrolled_motors,
                     brushless := zeroBrushlessIds s0.brushless}
            0 3 (byteAt m 0) false false).oobStore).oobRead (motorUnctrlLoop m
              (3 + byteAt m 0 * 4 + byteAt m 1 * 2 + byteAt m 2 * 2)
              (motorCtrlLoop m
            (3 + byteAt m 0 * 4 + byteAt m 1 * 2 + byteAt m 2 * 2)
            {s0 with controlled_motors := zeroControlledIds s0.controlled_motors,
                     uncontrolled_motors := zeroUncontrolledIds s0.uncontrolled_motors,
                     brushless := zeroBrushlessIds s0.brushless}
            0 3 (byteAt m 0) false false).s
              0 (3 + byteAt m 0 * 4) (byteAt m 1) (motorCtrlLoop m
            (3 + byteAt m 0 * 4 + byteAt m 1 * 2 + byteAt m 2 * 2)
            {s0 with controlled_motors := zeroControlledIds s0.controlled_motors,
                     uncontrolled_motors := zeroUncontrolledIds s0.uncontrolled_motors,
                     brushless := zeroBrushlessIds s0.brushless}
            0 3 (byteAt m 0) false false).oobRead (motorCtrlLoop m
            (3 + byteAt m 0 * 4 + byteAt m 1 * 2 + byteAt m 2 * 2)
            {s0 with controlled_motors := zeroControlledIds s0.controlled_motors,
                     uncontrolled_motors := zeroUncontrolledIds s0.uncontrolled_motors,
                     brushless := zeroBrushlessIds s0.brushless}
            0 3 (byteAt m 0) false false).oobStore).oobStore
          (Nat.find_spec hzb).1
          (fun j hj => by
            have hmin := Nat.find_min hzb hj
            have hjlt : j < byteAt m 2 := by
              have := (Nat.find_spec hzb).1
              omega
            tauto)
          (Nat.find_spec hzb).2
        simp [habort, hfail]

/-- Witness for C6: an 11-byte frame with one controlled, one uncontrolled
and one brushless record (all non-zero identifiers) decodes cleanly, while
a 7-byte frame whose controlled record has identifier 0 fails. -/
theorem motor_decode_zero_id_only_witness :
    (byteAt [1, 1, 1, 5, 0, 0, 0, 6, 0, 7, 0] 0 ≤ 8 ∧
     (motor_read_frame emptyMotors (some [1, 1, 1, 5, 0, 0, 0, 6, 0, 7, 0])
        (3 + byteAt [1, 1, 1, 5, 0, 0, 0, 6, 0, 7, 0] 0 * 4
          + byteAt [1, 1, 1, 5, 0, 0, 0, 6, 0, 7, 0] 1 * 2
          + byteAt [1, 1, 1, 5, 0, 0, 0, 6, 0, 7, 0] 2 * 2)).parsing_failed = false) ∧
    ((∃ j, j < byteAt [1, 0, 0, 0, 0, 0, 0] 0 ∧
        byteAt [1, 0, 0, 0, 0, 0, 0] (3 + 4 * j) = 0) ∧
     (motor_read_frame emptyMotors (some [1, 0, 0, 0, 0, 0, 0])
        (3 + byteAt [1, 0, 0, 0, 0, 0, 0] 0 * 4
          + byteAt [1, 0, 0, 0, 0, 0, 0] 1 * 2
          + byteAt [1, 0, 0, 0, 0, 0, 0] 2 * 2)).parsing_failed = true) :=
  ⟨⟨by decide,
    (motor_decode_zero_id_only emptyMotors [1, 1, 1, 5, 0, 0, 0, 6, 0, 7, 0]
      (by decide) (by decide) (by decide)).1 (by decide) (by decide) (by decide)⟩,
   ⟨⟨0, by decide, by decide⟩,
    (motor_decode_zero_id_only emptyMotors [1, 0, 0, 0, 0, 0, 0]
      (by decide) (by decide) (by decide)).2 (Or.inl ⟨0, by decide, by decide⟩)⟩⟩

/-- C2 (amended): round-trip for the servo codec holds for collections whose
populated slots all lie below `nb_servos`, with `nb_servos` at most 8,
in-range field values and pairwise-distinct identifiers: encoding then
decoding yields success, the populated count, the populated records in
order at slots `0 .. M-1`, and empty slots above. -/
theorem servo_codec_roundtrip (x s0 : SharedServos2019) (b : List Nat) (cap : Nat)
    (hs08 : s0.servos.length = 8)
    (hnb : x.nb_servos ≤ 8)
    (hbelow : ∀ i, i < 8 → (slotAt x.servos i).id % 256 > 0 → i < x.nb_servos)
    (hwf : ∀ r, r ∈ servoPopulatedList x → wfServo r)
    (hdist : (servoPopulatedList x).Pairwise (fun r1 r2 => r1.id ≠ r2.id))
    (hcap : 1 + nbServosPopulated x.servos * 6 ≤ cap) :
    (servo_write_frame (some b) cap (some x)).1 = 1 + 6 * nbServosPopulated x.servos ∧
    ((servo_read_frame s0
        (some (((servo_write_frame (some b) cap (some x)).2.getD []).take
          (servo_write_frame (some b) cap (some x)).1))
        (servo_write_frame (some b) cap (some x)).1).parsing_failed = false ∧
     (servo_read_frame s0
        (some (((servo_write_frame (some b) cap (some x)).2.getD []).take
          (servo_write_frame (some b) cap (some x)).1))
        (servo_write_frame (some b) cap (some x)).1).nb_servos
        = nbServosPopulated x.servos ∧
     (∀ k, k < nbServosPopulated x.servos →
        slotAt (servo_read_frame s0
          (some (((servo_write_frame (some b) cap (some x)).2.getD []).take
            (servo_write_frame (some b) cap (some x)).1))
          (servo_write_frame (some b) cap (some x)).1).servos k
          = (servoPopulatedList x).getD k default) ∧
     (∀ t, nbServosPopulated x.servos ≤ t → t < 8 →
        (slotAt (servo_read_frame s0
          (some (((servo_write_frame (some b) cap (some x)).2.getD []).take
            (servo_write_frame (some b) cap (some x)).1))
          (servo_write_frame (some b) cap (some x)).1).servos t).id = 0)) := by
  have hw := servo_write_frame_core_spec b cap x hcap
  have hlen1 : (servo_write_frame (some b) cap (some x)).1
      = 1 + 6 * nbServosPopulated x.servos := by
    unfold servo_write_frame
    rw [hw]
    show (nbServosPopulated x.servos :: servoWriteBody x).length = _
    rw [List.length_cons, servoWriteBody_length x hnb hbelow]
    omega
  have hlenout : (servo_write_frame (some b) cap (some x)).1
      = (nbServosPopulated x.servos :: servoWriteBody x).length := by
    unfold servo_write_frame
    rw [hw]
  have hbuf : (servo_write_frame (some b) cap (some x)).2
      = some (writeBytes b (nbServosPopulated x.servos :: servoWriteBody x)) := by
    unfold servo_write_frame
    rw [hw]
  have hframe : ((servo_write_frame (some b) cap (some x)).2.getD []).take
      (servo_write_frame (some b) cap (some x)).1
      = nbServosPopulated x.servos :: servoWriteBody x := by
    rw [hbuf, hlenout]
    show (writeBytes b _).take _ = _
    exact writeBytes_take b _
  refine ⟨hlen1, ?_⟩
  rw [hframe, hlen1]
  exact servo_roundtrip x s0 hs08 hnb hbelow hwf hdist

/-- C2 counterexample: the collection whose only populated record sits at
slot 0 with `nb_servos = 0` satisfies the claim as stated (one populated
slot, identifier 1, non-zero and distinct), yet decoding its encoding sets
`parsing_failed`. -/
theorem servo_roundtrip_fails_at_stray :
    (servo_read_frame emptyServos
      (some (((servo_write_frame (some (List.replicate 7 0)) 7 (some strayServoObj)).2.getD
        []).take (servo_write_frame (some (List.replicate 7 0)) 7 (some strayServoObj)).1))
      (servo_write_frame (some (List.replicate 7 0)) 7
        (some strayServoObj)).1).parsing_failed = true := by decide

/-- Witness for C2 at the one-record example collection of the
specification, with a 16-byte buffer. -/
theorem servo_codec_roundtrip_witness :
    (emptyServos.servos.length = 8 ∧ exServoObj.nb_servos ≤ 8 ∧
     (∀ i, i < 8 → (slotAt exServoObj.servos i).id % 256 > 0 → i < exServoObj.nb_servos) ∧
     (∀ r, r ∈ servoPopulatedList exServoObj → wfServo r) ∧
     (servoPopulatedList exServoObj).Pairwise (fun r1 r2 => r1.id ≠ r2.id) ∧
     1 + nbServosPopulated exServoObj.servos * 6 ≤ 16) ∧
    ((servo_write_frame (some (List.replicate 16 0)) 16 (some exServoObj)).1
        = 1 + 6 * nbServosPopulated exServoObj.servos ∧
     ((servo_read_frame emptyServos
        (some (((servo_write_frame (some (List.replicate 16 0)) 16 (some exServoObj)).2.getD
          []).take (servo_write_frame (some (List.replicate 16 0)) 16 (some exServoObj)).1))
        (servo_write_frame (some (List.replicate 16 0)) 16
          (some exServoObj)).1).parsing_failed = false ∧
      (servo_read_frame emptyServos
        (some (((servo_write_frame (some (List.replicate 16 0)) 16 (some exServoObj)).2.getD
          []).take (servo_write_frame (some (List.replicate 16 0)) 16 (some exServoObj)).1))
        (servo_write_frame (some (List.replicate 16 0)) 16
          (some exServoObj)).1).nb_servos = nbServosPopulated exServoObj.servos ∧
      (∀ k, k < nbServosPopulated exServoObj.servos →
        slotAt (servo_read_frame emptyServos
          (some (((servo_write_frame (some (List.replicate 16 0)) 16 (some exServoObj)).2.getD
            []).take (servo_write_frame (some (List.replicate 16 0)) 16 (some exServoObj)).1))
          (servo_write_frame (some (List.replicate 16 0)) 16
            (some exServoObj)).1).servos k
          = (servoPopulatedList exServoObj).getD k default) ∧
      (∀ t, nbServosPopulated exServoObj.servos ≤ t → t < 8 →
        (slotAt (servo_read_frame emptyServos
          (some (((servo_write_frame (some (List.replicate 16 0)) 16 (some exServoObj)).2.getD
            []).take (servo_write_frame (some (List.replicate 16 0)) 16 (some exServoObj)).1))
          (servo_write_frame (some (List.replicate 16 0)) 16
            (some exServoObj)).1).servos t).id = 0))) :=
  ⟨⟨by decide, by decide, by decide, by decide, by decide, by decide⟩,
   servo_codec_roundtrip exServoObj emptyServos (List.replicate 16 0) 16
     (by decide) (by decide) (by decide) (by decide) (by decide) (by decide)⟩
